import Mathlib

/-!
# pyplus: the emitted program `output/main.cpp`

The repository ships one C++ translation unit, `output/main.cpp`, the result of
rewriting a Python script.  This development transcribes that file statement by
statement into an abstract syntax tree (every node carries the line it starts
on, comments included), gives the tree an executable semantics, and proves the
properties of the program that the specification states.

Conventions of the semantics:
* `int` is a 32-bit signed integer; an `int` result outside
  `INT_MIN .. INT_MAX` is undefined behaviour and evaluates to `none`;
* `double` is IEEE binary64: a finite value is a rational, and every literal
  and every arithmetic result is rounded to the nearest representable value,
  ties to even; a result that is not finite (overflow, division by zero)
  evaluates to `none`;
* `int` division by zero is undefined behaviour and evaluates to `none`;
* the interpreter is driven by a fuel counter that decreases at every
  recursive call; running out of fuel gives `none`.
-/

namespace PyPlus

/-! ## Syntax -/

/-- C++ types written in `main.cpp`. -/
inductive CType
  | int | double | bool | string | auto | void
  deriving DecidableEq

/-- Binary operators of `main.cpp` other than `&&` and `||`:
`+`, `-`, `/`, `<`, `>`, `==`. -/
inductive BinOp
  | add | sub | div | lt | gt | eq
  deriving DecidableEq

/-- Expressions of `main.cpp`.  `land`, `lor`, `lnot` are `&&`, `||`, `!`;
`cast ty e` is the C-style cast `(ty)(e)`; `call` covers both library calls
(`std::to_string`, `pow`) and calls of functions defined in the file. -/
inductive Expr
  | intLit (n : Int)
  | dblLit (q : ℚ)
  | boolLit (b : Bool)
  | strLit (s : String)
  | var (name : String)
  | bin (op : BinOp) (a b : Expr)
  | land (a b : Expr)
  | lor (a b : Expr)
  | lnot (a : Expr)
  | cast (ty : CType) (a : Expr)
  | call (f : String) (args : List Expr)

/-- Statements of `main.cpp`; the first field is the source line.
`lineComment` is `//text`, `blockComment` is `/*text*/`,
`print e` is `std::cout << e << std::endl;`, an `ifElse` without `else`
has an empty `elseB`, and `else if` is an `elseB` holding one `ifElse`. -/
inductive Stmt
  | lineComment (line : Nat) (text : String)
  | blockComment (line : Nat) (text : String)
  | decl (line : Nat) (ty : CType) (name : String) (init : Expr)
  | assign (line : Nat) (name : String) (rhs : Expr)
  | exprStmt (line : Nat) (e : Expr)
  | print (line : Nat) (e : Expr)
  | ifElse (line : Nat) (cond : Expr) (thenB : List Stmt) (elseB : List Stmt)
  | whileLoop (line : Nat) (cond : Expr) (body : List Stmt)
  | brk (line : Nat)
  | cont (line : Nat)
  | ret (line : Nat) (e : Option Expr)

/-- Source line a statement starts on. -/
def Stmt.line : Stmt → Nat
  | .lineComment l _ => l
  | .blockComment l _ => l
  | .decl l _ _ _ => l
  | .assign l _ _ => l
  | .exprStmt l _ => l
  | .print l _ => l
  | .ifElse l _ _ _ => l
  | .whileLoop l _ _ => l
  | .brk l => l
  | .cont l => l
  | .ret l _ => l

/-- A formal parameter, with its default argument when it has one. -/
structure Param where
  ty : CType
  name : String
  dflt : Option Expr

/-- A function definition. -/
structure FunDef where
  line : Nat
  retTy : CType
  name : String
  params : List Param
  body : List Stmt

/-! ## The program text -/

/-- Line 60, the condition `(((x < 6) && (3 > 5) && (2 < 5)) || (3 > 5))`;
`&&` associates to the left. -/
def cond60 : Expr :=
  .lor (.land (.land (.bin .lt (.var "x") (.intLit 6)) (.bin .gt (.intLit 3) (.intLit 5)))
              (.bin .lt (.intLit 2) (.intLit 5)))
       (.bin .gt (.intLit 3) (.intLit 5))

/-- Lines 60-84: the `if` / `else if` / `else` chain. -/
def chain60 : Stmt :=
  .ifElse 60 cond60
    [ .ifElse 62 (.bin .eq (.var "x") (.var "b"))
        [ .print 64 (.strLit "True") ]
        [ .blockComment 68 "\n            else:\n            else:\n            else:\n            ",
          .print 73 (.strLit "not true") ],
      .print 75 (.strLit "Both") ]
    [ .ifElse 77 (.bin .gt (.var "x") (.intLit 8))
        [ .print 79 (.strLit "Else") ]
        [ .print 83 (.strLit "None") ] ]

/-- Lines 85-90: the `while (x)` loop. -/
def loop85 : Stmt :=
  .whileLoop 85 (.var "x")
    [ .print 87 (.strLit "hello"),
      .brk 88,
      .cont 89 ]

/-- Line 35, the divisor `((3+2)+x)`. -/
def divisor35 : Expr :=
  .bin .add (.bin .add (.intLit 3) (.intLit 2)) (.var "x")

/-- Line 35, right-hand side: `((3+5)+((double)v / ((3+2)+x)))`. -/
def tInit : Expr :=
  .bin .add (.bin .add (.intLit 3) (.intLit 5))
       (.bin .div (.cast .double (.var "v")) divisor35)

/-- Line 26: the statement `(int)(5.4);`. -/
def stmt26 : Stmt := .exprStmt 26 (.cast .int (.dblLit 5.4))

/-- Lines 11-96: the body of `main`. -/
def mainBody : List Stmt :=
  [ .blockComment 11 "\n    String\n    ",
    .lineComment 14 "TODO: Constant string not used",
    .blockComment 15 "\"Hi\"",
    .lineComment 16 "TODO: Constant not used",
    .blockComment 17 "1",
    .lineComment 18 "TODO: Value not assigned or used",
    .blockComment 19 "1 < 3",
    .print 20 (.strLit "hello"),
    .decl 21 .auto "string_var" (.bin .add (.call "std::to_string" [.intLit 1]) (.strLit "2")),
    .print 22 (.strLit "hello2"),
    .decl 23 .bool "boolean" (.boolLit true),
    .decl 24 .bool "boolean2" (.boolLit false),
    .decl 25 .int "b" (.cast .int (.dblLit 5.4)),
    stmt26,
    .lineComment 27 "TODO: Code not directly translatable, manual port required",
    .blockComment 28 "ls = [1,2,3]",
    .decl 29 .int "x" (.intLit 5),
    .lineComment 30 "TODO: Refactor for C++. Variable types cannot change or potential loss of precision occurred",
    .blockComment 31 "x=5.1",
    .decl 32 .int "m" (.var "x"),
    .decl 33 .bool "q" (.bin .lt (.intLit 1) (.intLit 3)),
    .decl 34 .int "v" (.bin .add (.intLit 3) (.var "x")),
    .decl 35 .double "t" tInit,
    .assign 36 "v" (.intLit 8),
    .assign 37 "x" (.var "v"),
    .assign 38 "t" (.call "pow" [.dblLit 3.2, .intLit 2]),
    .lineComment 39 "TODO: Unable to translate chained assignment",
    .blockComment 40 "x = b = 3",
    .ifElse 41 (.var "x")
      [ .blockComment 43 "\n        abc\n        ",
        .print 46 (.strLit "hi") ]
      [],
    .ifElse 48 (.lnot (.lor (.var "x") (.var "m")))
      [ .print 50 (.strLit "hi") ]
      [],
    .ifElse 52 (.land (.bin .lt (.intLit 0) (.intLit 5)) (.bin .lt (.intLit 5) (.intLit 8)))
      [ .print 54 (.strLit "in range") ]
      [],
    .ifElse 56 (.land (.bin .lt (.var "x") (.intLit 4)) (.bin .gt (.var "m") (.intLit 3)))
      [ .print 58 (.strLit "test") ]
      [],
    chain60,
    loop85,
    .print 91 (.intLit 1),
    .lineComment 92 "TODO: Call to function not in scope",
    .blockComment 93 "tester = Tester(2)",
    .lineComment 94 "TODO: Not a valid call",
    .blockComment 95 "tester.test()",
    .assign 96 "x" (.call "add" [.intLit 1, .intLit 2]) ]

/-- Lines 9-97: `int main(int argc, char **argv)`.  The type of `argv` has no
counterpart in `CType`; it is bound untyped. -/
def main : FunDef :=
  { line := 9, retTy := .int, name := "main",
    params := [⟨.int, "argc", none⟩, ⟨.auto, "argv", none⟩],
    body := mainBody }

/-- Lines 99-110: `void print_test()`. -/
def print_test : FunDef :=
  { line := 99, retTy := .void, name := "print_test", params := [],
    body :=
      [ .blockComment 101 "\n    Test Doc String\n    :return: none\n    ",
        .print 105 (.strLit "Test"),
        .decl 106 .int "y" (.intLit 3),
        .assign 107 "y" (.intLit 8),
        .assign 108 "y" (.bin .add (.intLit 3) (.intLit 9)),
        .decl 109 .int "z" (.bin .sub (.intLit 3) (.intLit 9)) ] }

/-- Lines 112-115: `int add(int a, int b)`. -/
def add : FunDef :=
  { line := 112, retTy := .int, name := "add",
    params := [⟨.int, "a", none⟩, ⟨.int, "b", none⟩],
    body := [ .ret 114 (some (.bin .add (.var "a") (.var "b"))) ] }

/-- Lines 117-122: `void abc(auto a, auto y, auto z, int b=3, std::string c="hi")`. -/
def abc : FunDef :=
  { line := 117, retTy := .void, name := "abc",
    params := [⟨.auto, "a", none⟩, ⟨.auto, "y", none⟩, ⟨.auto, "z", none⟩,
               ⟨.int, "b", some (.intLit 3)⟩, ⟨.string, "c", some (.strLit "hi")⟩],
    body :=
      [ .print 119 (.strLit "3342"),
        .assign 120 "y" (.intLit 6),
        .ret 121 none ] }

/-- The functions defined in `main.cpp`, in file order. -/
def program : List FunDef := [main, print_test, add, abc]

/-! ## Analyses of the program text -/

mutual

/-- A statement together with every statement nested inside it, in source
order. -/
def Stmt.flatten : Stmt → List Stmt
  | .ifElse l c thenB elseB =>
    .ifElse l c thenB elseB :: (flattenAll thenB ++ flattenAll elseB)
  | .whileLoop l c body => .whileLoop l c body :: flattenAll body
  | .lineComment l t => [.lineComment l t]
  | .blockComment l t => [.blockComment l t]
  | .decl l ty n e => [.decl l ty n e]
  | .assign l n e => [.assign l n e]
  | .exprStmt l e => [.exprStmt l e]
  | .print l e => [.print l e]
  | .brk l => [.brk l]
  | .cont l => [.cont l]
  | .ret l e => [.ret l e]

/-- Every statement of a block, nested ones included, in source order. -/
def flattenAll : List Stmt → List Stmt
  | [] => []
  | s :: rest => s.flatten ++ flattenAll rest

end

/-- Does the statement declare or assign the variable `name`? -/
def Stmt.writes (name : String) : Stmt → Bool
  | .decl _ _ n _ => n == name
  | .assign _ n _ => n == name
  | _ => false

mutual

/-- Does the expression mention the variable `name`? -/
def Expr.reads (name : String) : Expr → Bool
  | .intLit _ => false
  | .dblLit _ => false
  | .boolLit _ => false
  | .strLit _ => false
  | .var n => n == name
  | .bin _ a b => a.reads name || b.reads name
  | .land a b => a.reads name || b.reads name
  | .lor a b => a.reads name || b.reads name
  | .lnot a => a.reads name
  | .cast _ a => a.reads name
  | .call _ args => readsAny name args

/-- Does one of the expressions mention the variable `name`? -/
def readsAny (name : String) : List Expr → Bool
  | [] => false
  | e :: es => e.reads name || readsAny name es

end

/-- Does the statement itself (its initialiser, right-hand side, operand or
condition, not the statements nested in it) read the variable `name`? -/
def Stmt.reads (name : String) : Stmt → Bool
  | .decl _ _ _ e => e.reads name
  | .assign _ _ e => e.reads name
  | .exprStmt _ e => e.reads name
  | .print _ e => e.reads name
  | .ifElse _ c _ _ => c.reads name
  | .whileLoop _ c _ => c.reads name
  | .ret _ (some e) => e.reads name
  | _ => false

/-- The `//` comments of a block, each with its line, its text and the text
of the `/* */` comment that starts on the next line, if there is one. -/
def skipComments : List Stmt → List (Nat × String × Option String)
  | [] => []
  | .lineComment l t :: .blockComment m b :: rest =>
    (l, t, if m = l + 1 then some b else none) :: skipComments rest
  | .lineComment l t :: rest => (l, t, none) :: skipComments rest
  | _ :: rest => skipComments rest

/-- Does `s` begin with `pat`? -/
def beginsWith : List Char → List Char → Bool
  | [], _ => true
  | _ :: _, [] => false
  | p :: ps, c :: cs => p == c && beginsWith ps cs

/-- Does `pat` occur somewhere in `s`? -/
def occursIn (pat : List Char) : List Char → Bool
  | [] => beginsWith pat []
  | c :: cs => beginsWith pat (c :: cs) || occursIn pat cs

/-- A comment carries a reason string when the string occurs in its text. -/
def carries (comment reason : String) : Bool :=
  occursIn reason.toList comment.toList

/-! ## Binary64 rounding -/

/-- Worker of `ilog2`: the fuel bounds the number of halvings. -/
def ilog2Fuel : Nat → Nat → Nat
  | 0, _ => 0
  | fuel + 1, n => if n < 2 then 0 else ilog2Fuel fuel (n / 2) + 1

/-- Position of the leading binary digit of `n ≥ 1`:
`2^(ilog2 n) ≤ n < 2^(ilog2 n + 1)`. -/
def ilog2 (n : Nat) : Nat := ilog2Fuel n n

/-- The rational `2^e` for an integer exponent. -/
def pow2 (e : Int) : ℚ :=
  if 0 ≤ e then ((2 ^ e.toNat : Nat) : ℚ) else 1 / ((2 ^ (-e).toNat : Nat) : ℚ)

/-- Binary exponent of a non-zero rational: the `e` with `2^e ≤ |q| < 2^(e+1)`. -/
def binade (q : ℚ) : Int :=
  let a := q.num.natAbs
  let b := q.den
  let d : Int := (ilog2 a : Int) - (ilog2 b : Int)
  if b * 2 ^ ilog2 a ≤ a * 2 ^ ilog2 b then d else d - 1

/-- Nearest integer, ties to the even one. -/
def roundHalfEven (y : ℚ) : Int :=
  let f : Int := y.num / y.den
  let r : ℚ := y - f
  if r < 1 / 2 then f
  else if 1 / 2 < r then f + 1
  else if f % 2 = 0 then f else f + 1

/-- Round to the nearest binary64 value, ties to even: 53 significant bits,
least exponent -1022 (below it the spacing stays `2^-1074`); the exponent is
not bounded above here. -/
def roundDouble (q : ℚ) : ℚ :=
  if q = 0 then 0
  else (roundHalfEven (q / pow2 (max (binade q) (-1022) - 52)) : ℚ) *
    pow2 (max (binade q) (-1022) - 52)

/-- The number `2^1024`: a rounded magnitude that reaches it is not a finite
`double`. -/
def DBL_LIMIT : Nat :=
  179769313486231590772930519078902473361797697894230657273430081157732675805500963132708477322407536021120113879871393357658789768814416622492847430639474124377767893424865485276302219601246094119453082952085005768838150682342462881473913110540827237163350510684586298239947245938479716304835356329624224137216

/-- The `double` nearest to `q`; `none` when the rounded value is not finite
(overflow to infinity). -/
def toDouble (q : ℚ) : Option ℚ :=
  if (roundDouble q).num.natAbs < DBL_LIMIT * (roundDouble q).den then some (roundDouble q)
  else none

/-- Conversion `int → double`. -/
def intToDouble (n : Int) : ℚ := roundDouble n

/-! ## Values and the pure part of the semantics -/

/-- Run-time values.  A `dbl` holds a finite `double` as the rational it
denotes; `args` is the `char **argv` vector, `void` the result of a call of a
`void` function. -/
inductive Val
  | int (n : Int)
  | dbl (q : ℚ)
  | bool (b : Bool)
  | str (s : String)
  | args (a : List String)
  | void
  deriving DecidableEq

/-- Smallest value of a 32-bit `int`. -/
def INT_MIN : Int := -2147483648

/-- Largest value of a 32-bit `int`. -/
def INT_MAX : Int := 2147483647

/-- An `int` result: defined only inside the 32-bit range. -/
def mkInt (n : Int) : Option Val :=
  if INT_MIN ≤ n ∧ n ≤ INT_MAX then some (.int n) else none

/-- The conversion `double → int` of C++: the fractional part is discarded
(truncation toward zero); undefined when the truncated value does not fit. -/
def castInt (q : ℚ) : Option Val :=
  mkInt (Int.tdiv q.num q.den)

/-- Integral promotion of `bool`. -/
def boolToInt (b : Bool) : Int := if b then 1 else 0

/-- Conversion of a value to the type `ty` (declaration with initialiser,
argument passing, `return`, C-style cast). -/
def convert (ty : CType) (v : Val) : Option Val :=
  match ty, v with
  | .auto, v => some v
  | .int, .int n => some (.int n)
  | .int, .bool b => some (.int (boolToInt b))
  | .int, .dbl q => castInt q
  | .double, .int n => some (.dbl (intToDouble n))
  | .double, .bool b => some (.dbl (intToDouble (boolToInt b)))
  | .double, .dbl q => some (.dbl q)
  | .bool, .int n => some (.bool (decide (n ≠ 0)))
  | .bool, .bool b => some (.bool b)
  | .bool, .dbl q => some (.bool (decide (q ≠ 0)))
  | .string, .str s => some (.str s)
  | .void, .void => some .void
  | _, _ => none

/-- Static type of a stored value; an assignment converts to it. -/
def typeOf : Val → CType
  | .int _ => .int
  | .dbl _ => .double
  | .bool _ => .bool
  | .str _ => .string
  | .args _ => .auto
  | .void => .void

/-- Contextual conversion to `bool` (conditions, operands of `&&`, `||`, `!`). -/
def toBool (v : Val) : Option Bool :=
  match convert .bool v with
  | some (.bool b) => some b
  | _ => none

/-- Operands after the usual arithmetic conversions. -/
inductive NumPair
  | ints (a b : Int)
  | dbls (a b : ℚ)

/-- Usual arithmetic conversions: `bool` promotes to `int`, and if either
operand is `double` both become `double`. -/
def promote (a b : Val) : Option NumPair :=
  match a, b with
  | .int x, .int y => some (.ints x y)
  | .int x, .bool y => some (.ints x (boolToInt y))
  | .bool x, .int y => some (.ints (boolToInt x) y)
  | .bool x, .bool y => some (.ints (boolToInt x) (boolToInt y))
  | .dbl x, .dbl y => some (.dbls x y)
  | .dbl x, .int y => some (.dbls x (intToDouble y))
  | .dbl x, .bool y => some (.dbls x (intToDouble (boolToInt y)))
  | .int x, .dbl y => some (.dbls (intToDouble x) y)
  | .bool x, .dbl y => some (.dbls (intToDouble (boolToInt x)) y)
  | _, _ => none

/-- A `double` result: the exact result rounded to the nearest `double`. -/
def mkDbl (q : ℚ) : Option Val :=
  match toDouble q with
  | none => none
  | some d => some (.dbl d)

/-- Operator `+`: string concatenation, or numeric addition. -/
def addV (a b : Val) : Option Val :=
  match a, b with
  | .str s, .str t => some (.str (s ++ t))
  | _, _ =>
    match promote a b with
    | some (.ints x y) => mkInt (x + y)
    | some (.dbls x y) => mkDbl (x + y)
    | none => none

/-- Operator `-`. -/
def subV (a b : Val) : Option Val :=
  match promote a b with
  | some (.ints x y) => mkInt (x - y)
  | some (.dbls x y) => mkDbl (x - y)
  | none => none

/-- Operator `/`: truncating on `int`, correctly rounded on `double`; a zero
divisor gives no finite result. -/
def divV (a b : Val) : Option Val :=
  match promote a b with
  | some (.ints x y) => if y = 0 then none else mkInt (Int.tdiv x y)
  | some (.dbls x y) => if y = 0 then none else mkDbl (x / y)
  | none => none

/-- Operator `<`. -/
def ltV (a b : Val) : Option Val :=
  match promote a b with
  | some (.ints x y) => some (.bool (decide (x < y)))
  | some (.dbls x y) => some (.bool (decide (x < y)))
  | none => none

/-- Operator `==`. -/
def eqV (a b : Val) : Option Val :=
  match promote a b with
  | some (.ints x y) => some (.bool (decide (x = y)))
  | some (.dbls x y) => some (.bool (decide (x = y)))
  | none => none

/-- Operator `>`: `a > b` is `b < a`. -/
def gtV (a b : Val) : Option Val := ltV b a

/-- Value of a binary operator on evaluated operands. -/
def binV : BinOp → Val → Val → Option Val
  | .add => addV
  | .sub => subV
  | .div => divV
  | .lt => ltV
  | .gt => gtV
  | .eq => eqV

/-- Library calls used by `main.cpp`.  `none`: not a library function;
`some none`: the call is undefined or outside the modelled fragment.
`pow` is modelled for exponents that are non-negative whole numbers, as the
correctly rounded power. -/
def builtin (f : String) (vs : List Val) : Option (Option Val) :=
  if f = "std::to_string" then
    some (match vs with
      | [.int n] => some (.str (toString n))
      | _ => none)
  else if f = "pow" then
    some (match vs with
      | [a, b] =>
        match convert .double a, convert .double b with
        | some (.dbl x), some (.dbl y) =>
          if y.den = 1 ∧ 0 ≤ y.num then mkDbl (x ^ y.num.toNat) else none
        | _, _ => none
      | _ => none)
  else none

/-- What `std::cout << v` writes, for the value kinds `main.cpp` prints. -/
def render : Val → Option String
  | .int n => some (toString n)
  | .str s => some s
  | .bool b => some (toString (boolToInt b))
  | _ => none

/-! ## Program state -/

/-- Machine state: the variables in scope (innermost first), the lines written
to standard output, and the source lines of the statements executed so far. -/
structure State where
  vars : List (String × Val)
  out : List String
  trace : List Nat

/-- Value of the innermost variable called `name`. -/
def lookup (name : String) : List (String × Val) → Option Val
  | [] => none
  | (n, v) :: rest => if n = name then some v else lookup name rest

/-- Overwrite the innermost variable called `name`. -/
def update (name : String) (v : Val) : List (String × Val) → Option (List (String × Val))
  | [] => none
  | (n, w) :: rest =>
    if n = name then some ((n, v) :: rest)
    else (update name v rest).map ((n, w) :: ·)

/-- How a statement finished. -/
inductive Signal
  | normal
  | brk
  | cont
  | ret (v : Val)

/-- Definition of the function called `name`. -/
def findFun (name : String) : List FunDef → Option FunDef
  | [] => none
  | fd :: rest => if fd.name = name then some fd else findFun name rest

/-- Record that the statement on `line` is being executed. -/
def State.visit (σ : State) (line : Nat) : State :=
  { σ with trace := σ.trace ++ [line] }

/-- Leave a block: the variables declared inside it go out of scope. -/
def State.leave (σ : State) (outer : Nat) : State :=
  { σ with vars := σ.vars.drop (σ.vars.length - outer) }

/-! ## The interpreter -/

mutual

/-- Evaluate an expression.  `&&` and `||` short-circuit; a call first
evaluates its arguments, then runs a library function or the body of a
function of the file in a fresh frame. -/
def evalExpr (funs : List FunDef) : Nat → Expr → State → Option (Val × State)
  | 0, _, _ => none
  | fuel + 1, e, σ =>
    match e with
    | .intLit n => some (.int n, σ)
    | .dblLit q =>
      match mkDbl q with
      | none => none
      | some v => some (v, σ)
    | .boolLit b => some (.bool b, σ)
    | .strLit s => some (.str s, σ)
    | .var name =>
      match lookup name σ.vars with
      | none => none
      | some v => some (v, σ)
    | .bin op a b =>
      match evalExpr funs fuel a σ with
      | none => none
      | some (va, σ1) =>
        match evalExpr funs fuel b σ1 with
        | none => none
        | some (vb, σ2) =>
          match binV op va vb with
          | none => none
          | some v => some (v, σ2)
    | .land a b =>
      match evalExpr funs fuel a σ with
      | none => none
      | some (va, σ1) =>
        match toBool va with
        | none => none
        | some false => some (.bool false, σ1)
        | some true =>
          match evalExpr funs fuel b σ1 with
          | none => none
          | some (vb, σ2) =>
            match toBool vb with
            | none => none
            | some r => some (.bool r, σ2)
    | .lor a b =>
      match evalExpr funs fuel a σ with
      | none => none
      | some (va, σ1) =>
        match toBool va with
        | none => none
        | some true => some (.bool true, σ1)
        | some false =>
          match evalExpr funs fuel b σ1 with
          | none => none
          | some (vb, σ2) =>
            match toBool vb with
            | none => none
            | some r => some (.bool r, σ2)
    | .lnot a =>
      match evalExpr funs fuel a σ with
      | none => none
      | some (va, σ1) =>
        match toBool va with
        | none => none
        | some r => some (.bool (!r), σ1)
    | .cast ty a =>
      match evalExpr funs fuel a σ with
      | none => none
      | some (va, σ1) =>
        match convert ty va with
        | none => none
        | some v => some (v, σ1)
    | .call f args =>
      match evalArgs funs fuel args σ with
      | none => none
      | some (vs, σ1) =>
        match builtin f vs with
        | some none => none
        | some (some v) => some (v, σ1)
        | none =>
          match findFun f funs with
          | none => none
          | some fd =>
            match bindParams funs fuel fd.params vs σ1 with
            | none => none
            | some (frame, σ2) =>
              match execSeq funs fuel fd.body { σ2 with vars := frame } with
              | some (.ret v, σ3) =>
                match convert fd.retTy v with
                | none => none
                | some w => some (w, { σ3 with vars := σ2.vars })
              | some (.normal, σ3) =>
                if fd.retTy = .void then some (.void, { σ3 with vars := σ2.vars }) else none
              | some (.brk, _) => none
              | some (.cont, _) => none
              | none => none

/-- Evaluate the arguments of a call, left to right. -/
def evalArgs (funs : List FunDef) : Nat → List Expr → State → Option (List Val × State)
  | 0, _, _ => none
  | _ + 1, [], σ => some ([], σ)
  | fuel + 1, e :: es, σ =>
    match evalExpr funs fuel e σ with
    | none => none
    | some (v, σ1) =>
      match evalArgs funs fuel es σ1 with
      | none => none
      | some (vs, σ2) => some (v :: vs, σ2)

/-- Bind the parameters of a callee to the argument values, converting each to
the parameter type; a missing trailing argument takes the default. -/
def bindParams (funs : List FunDef) :
    Nat → List Param → List Val → State → Option (List (String × Val) × State)
  | 0, _, _, _ => none
  | _ + 1, [], [], σ => some ([], σ)
  | _ + 1, [], _ :: _, _ => none
  | fuel + 1, p :: ps, v :: vs, σ =>
    match convert p.ty v with
    | none => none
    | some w =>
      match bindParams funs fuel ps vs σ with
      | none => none
      | some (frame, σ1) => some ((p.name, w) :: frame, σ1)
  | fuel + 1, p :: ps, [], σ =>
    match p.dflt with
    | none => none
    | some d =>
      match evalExpr funs fuel d σ with
      | none => none
      | some (v, σ1) =>
        match convert p.ty v with
        | none => none
        | some w =>
          match bindParams funs fuel ps [] σ1 with
          | none => none
          | some (frame, σ2) => some ((p.name, w) :: frame, σ2)

/-- Execute one statement.  Comments are not statements: they leave the state,
trace included, as it is. -/
def execStmt (funs : List FunDef) : Nat → Stmt → State → Option (Signal × State)
  | 0, _, _ => none
  | fuel + 1, s, σ =>
    match s with
    | .lineComment _ _ => some (.normal, σ)
    | .blockComment _ _ => some (.normal, σ)
    | .decl l ty name init =>
      match evalExpr funs fuel init (σ.visit l) with
      | none => none
      | some (v, σ1) =>
        match convert ty v with
        | none => none
        | some w => some (.normal, { σ1 with vars := (name, w) :: σ1.vars })
    | .assign l name rhs =>
      match evalExpr funs fuel rhs (σ.visit l) with
      | none => none
      | some (v, σ1) =>
        match lookup name σ1.vars with
        | none => none
        | some old =>
          match convert (typeOf old) v with
          | none => none
          | some w =>
            match update name w σ1.vars with
            | none => none
            | some vars => some (.normal, { σ1 with vars := vars })
    | .exprStmt l e =>
      match evalExpr funs fuel e (σ.visit l) with
      | none => none
      | some (_, σ1) => some (.normal, σ1)
    | .print l e =>
      match evalExpr funs fuel e (σ.visit l) with
      | none => none
      | some (v, σ1) =>
        match render v with
        | none => none
        | some text => some (.normal, { σ1 with out := σ1.out ++ [text] })
    | .ifElse l c thenB elseB =>
      match evalExpr funs fuel c (σ.visit l) with
      | none => none
      | some (vc, σ1) =>
        match toBool vc with
        | none => none
        | some true =>
          match execSeq funs fuel thenB σ1 with
          | none => none
          | some (sig, σ2) => some (sig, σ2.leave σ1.vars.length)
        | some false =>
          match execSeq funs fuel elseB σ1 with
          | none => none
          | some (sig, σ2) => some (sig, σ2.leave σ1.vars.length)
    | .whileLoop l c body =>
      match evalExpr funs fuel c (σ.visit l) with
      | none => none
      | some (vc, σ1) =>
        match toBool vc with
        | none => none
        | some false => some (.normal, σ1)
        | some true =>
          match execSeq funs fuel body σ1 with
          | none => none
          | some (.brk, σ2) => some (.normal, σ2.leave σ1.vars.length)
          | some (.ret v, σ2) => some (.ret v, σ2.leave σ1.vars.length)
          | some (.cont, σ2) =>
            execStmt funs fuel (.whileLoop l c body) (σ2.leave σ1.vars.length)
          | some (.normal, σ2) =>
            execStmt funs fuel (.whileLoop l c body) (σ2.leave σ1.vars.length)
    | .brk l => some (.brk, σ.visit l)
    | .cont l => some (.cont, σ.visit l)
    | .ret l e =>
      match e with
      | none => some (.ret .void, σ.visit l)
      | some e =>
        match evalExpr funs fuel e (σ.visit l) with
        | none => none
        | some (v, σ1) => some (.ret v, σ1)

/-- Execute statements in sequence; `break`, `continue` and `return` end the
sequence and are passed on. -/
def execSeq (funs : List FunDef) : Nat → List Stmt → State → Option (Signal × State)
  | 0, _, _ => none
  | _ + 1, [], σ => some (.normal, σ)
  | fuel + 1, s :: rest, σ =>
    match execStmt funs fuel s σ with
    | none => none
    | some (.normal, σ1) => execSeq funs fuel rest σ1
    | some (.brk, σ1) => some (.brk, σ1)
    | some (.cont, σ1) => some (.cont, σ1)
    | some (.ret v, σ1) => some (.ret v, σ1)

end

/-- State in which `main` starts: its two parameters, no output, empty trace. -/
def initState (argc : Int) (argv : List String) : State :=
  { vars := [("argc", .int argc), ("argv", .args argv)], out := [], trace := [] }

/-- Run the body of `main` from the start state. -/
def runMain (fuel : Nat) (argc : Int) (argv : List String) : Option (Signal × State) :=
  execSeq program fuel main.body (initState argc argv)

/-- Top-level statements of `main` that start on or before `line`. -/
def mainUpTo (line : Nat) : List Stmt :=
  mainBody.takeWhile fun s => decide (s.line ≤ line)

/-- Run `main` from the start state through the statement on `line`. -/
def runMainUpTo (fuel line : Nat) (argc : Int) (argv : List String) :
    Option (Signal × State) :=
  execSeq program fuel (mainUpTo line) (initState argc argv)

/-- Condition of an `if` or `while` statement. -/
def Stmt.cond? : Stmt → Option Expr
  | .ifElse _ c _ _ => some c
  | .whileLoop _ c _ => some c
  | _ => none

/-- Truth value of the condition of the top-level `if` or `while` of `main`
that starts on `line`, in the state in which `main` reaches that statement. -/
def condOnLine (fuel line : Nat) (argc : Int) (argv : List String) : Option Bool :=
  match mainBody.find? (fun s => s.line == line), runMainUpTo fuel (line - 1) argc argv with
  | some s, some (_, σ) =>
    match s.cond? with
    | none => none
    | some c =>
      match evalExpr program fuel c σ with
      | none => none
      | some (v, _) => toBool v
  | _, _ => none

/-! ## States reached by `main` -/

/-- State of `main` after line 29 (`int x = 5;`). -/
def state29 (argc : Int) (argv : List String) : State :=
  { vars := [("x", .int 5), ("b", .int 5), ("boolean2", .bool false),
             ("boolean", .bool true), ("string_var", .str "12"),
             ("argc", .int argc), ("argv", .args argv)],
    out := ["hello", "hello2"],
    trace := [20, 21, 22, 23, 24, 25, 26, 29] }

/-- State of `main` after line 34 (`int v = (3+x);`). -/
def state34 (argc : Int) (argv : List String) : State :=
  { vars := [("v", .int 8), ("q", .bool true), ("m", .int 5),
             ("x", .int 5), ("b", .int 5), ("boolean2", .bool false),
             ("boolean", .bool true), ("string_var", .str "12"),
             ("argc", .int argc), ("argv", .args argv)],
    out := ["hello", "hello2"],
    trace := [20, 21, 22, 23, 24, 25, 26, 29, 32, 33, 34] }

/-- State of `main` after line 38 (`t = (pow(3.2, 2));`). -/
def state38 (argc : Int) (argv : List String) : State :=
  { vars := [("t", .dbl (1441151880758559 / 140737488355328)), ("v", .int 8),
             ("q", .bool true), ("m", .int 5),
             ("x", .int 8), ("b", .int 5), ("boolean2", .bool false),
             ("boolean", .bool true), ("string_var", .str "12"),
             ("argc", .int argc), ("argv", .args argv)],
    out := ["hello", "hello2"],
    trace := [20, 21, 22, 23, 24, 25, 26, 29, 32, 33, 34, 35, 36, 37, 38] }

/-- State of `main` after line 59, where the chain of line 60 is entered. -/
def state59 (argc : Int) (argv : List String) : State :=
  { state38 argc argv with
    out := ["hello", "hello2", "hi", "in range"],
    trace := [20, 21, 22, 23, 24, 25, 26, 29, 32, 33, 34, 35, 36, 37, 38, 41, 46, 48, 52,
              54, 56] }

/-- State of `main` after line 84, where the loop of line 85 is entered. -/
def state84 (argc : Int) (argv : List String) : State :=
  { state38 argc argv with
    out := ["hello", "hello2", "hi", "in range", "None"],
    trace := [20, 21, 22, 23, 24, 25, 26, 29, 32, 33, 34, 35, 36, 37, 38, 41, 46, 48, 52,
              54, 56, 60, 77, 83] }

/-- State of `main` when it ends. -/
def stateEnd (argc : Int) (argv : List String) : State :=
  { vars := [("t", .dbl (1441151880758559 / 140737488355328)), ("v", .int 8),
             ("q", .bool true), ("m", .int 5),
             ("x", .int 3), ("b", .int 5), ("boolean2", .bool false),
             ("boolean", .bool true), ("string_var", .str "12"),
             ("argc", .int argc), ("argv", .args argv)],
    out := ["hello", "hello2", "hi", "in range", "None", "hello", "1"],
    trace := [20, 21, 22, 23, 24, 25, 26, 29, 32, 33, 34, 35, 36, 37, 38, 41, 46, 48, 52,
              54, 56, 60, 77, 83, 85, 87, 88, 91, 96, 114] }

/-! ## Fuel is only a termination device -/

/-- Results reached with `n` units of fuel, for the five mutually recursive
functions of the interpreter, are kept with `n + 1`. -/
def FuelStep (funs : List FunDef) (n : Nat) : Prop :=
  (∀ e σ r, evalExpr funs n e σ = some r → evalExpr funs (n + 1) e σ = some r) ∧
  (∀ es σ r, evalArgs funs n es σ = some r → evalArgs funs (n + 1) es σ = some r) ∧
  (∀ ps vs σ r, bindParams funs n ps vs σ = some r →
      bindParams funs (n + 1) ps vs σ = some r) ∧
  (∀ s σ r, execStmt funs n s σ = some r → execStmt funs (n + 1) s σ = some r) ∧
  (∀ ss σ r, execSeq funs n ss σ = some r → execSeq funs (n + 1) ss σ = some r)

/-- A result that is kept by the step is the result after the step. -/
theorem eq_of_isSome_of_step {α : Type} {f g : Option α}
    (h : ∀ r, f = some r → g = some r) (hs : f.isSome) : g = f := by
  obtain ⟨r, hr⟩ := Option.isSome_iff_exists.1 hs
  rw [h r hr, hr]

/-- One more unit of fuel never changes a result that was already reached. -/
theorem fuelStep_all (funs : List FunDef) : ∀ n : Nat, FuelStep funs n := by
  intro n
  induction n with
  | zero =>
    refine ⟨?_, ?_, ?_, ?_, ?_⟩ <;> intros <;>
      simp_all [evalExpr, evalArgs, bindParams, execStmt, execSeq]
  | succ n ih =>
    obtain ⟨ihE, ihA, ihB, ihS, ihQ⟩ := ih
    have hE : ∀ e σ, (evalExpr funs n e σ).isSome →
        evalExpr funs (n + 1) e σ = evalExpr funs n e σ :=
      fun e σ => eq_of_isSome_of_step (ihE e σ)
    have hA : ∀ es σ, (evalArgs funs n es σ).isSome →
        evalArgs funs (n + 1) es σ = evalArgs funs n es σ :=
      fun es σ => eq_of_isSome_of_step (ihA es σ)
    have hB : ∀ ps vs σ, (bindParams funs n ps vs σ).isSome →
        bindParams funs (n + 1) ps vs σ = bindParams funs n ps vs σ :=
      fun ps vs σ => eq_of_isSome_of_step (ihB ps vs σ)
    have hS : ∀ s σ, (execStmt funs n s σ).isSome →
        execStmt funs (n + 1) s σ = execStmt funs n s σ :=
      fun s σ => eq_of_isSome_of_step (ihS s σ)
    have hQ : ∀ ss σ, (execSeq funs n ss σ).isSome →
        execSeq funs (n + 1) ss σ = execSeq funs n ss σ :=
      fun ss σ => eq_of_isSome_of_step (ihQ ss σ)
    clear ihE ihA ihB ihS ihQ
    refine ⟨?_, ?_, ?_, ?_, ?_⟩
    · intro e σ r h
      cases e <;> rw [evalExpr] at h ⊢ <;> (repeat' split at h) <;> simp_all
    · intro es σ r h
      cases es <;> rw [evalArgs] at h ⊢ <;> (repeat' split at h) <;> simp_all
    · intro ps vs σ r h
      cases ps <;> cases vs <;> rw [bindParams] at h ⊢ <;> (repeat' split at h) <;> simp_all
    · intro s σ r h
      cases s with
      | ret l e =>
        cases e <;> rw [execStmt] at h ⊢ <;> (repeat' split at h) <;> simp_all
      | _ =>
        rw [execStmt] at h ⊢
        (repeat' split at h) <;> simp_all
    · intro ss σ r h
      cases ss <;> rw [execSeq] at h ⊢ <;> (repeat' split at h) <;>
        (try simp only [Option.some.injEq] at h) <;> (try subst h) <;> simp_all

/-- An expression that has a value with `n` units of fuel has the same value
with any larger amount. -/
theorem evalExpr_fuel_add (funs : List FunDef) (n k : Nat) (e : Expr) (σ : State)
    (r : Val × State) (h : evalExpr funs n e σ = some r) :
    evalExpr funs (k + n) e σ = some r := by
  induction k with
  | zero => rw [Nat.zero_add]; exact h
  | succ k ih => rw [Nat.add_right_comm]; exact (fuelStep_all funs (k + n)).1 e σ r ih

/-- A statement that finishes with `n` units of fuel finishes in the same
state with any larger amount. -/
theorem execStmt_fuel_add (funs : List FunDef) (n k : Nat) (s : Stmt) (σ : State)
    (r : Signal × State) (h : execStmt funs n s σ = some r) :
    execStmt funs (k + n) s σ = some r := by
  induction k with
  | zero => rw [Nat.zero_add]; exact h
  | succ k ih => rw [Nat.add_right_comm]; exact (fuelStep_all funs (k + n)).2.2.2.1 s σ r ih

/-- A statement sequence that finishes with `n` units of fuel finishes in the
same state with any larger amount. -/
theorem execSeq_fuel_add (funs : List FunDef) (n k : Nat) (ss : List Stmt) (σ : State)
    (r : Signal × State) (h : execSeq funs n ss σ = some r) :
    execSeq funs (k + n) ss σ = some r := by
  induction k with
  | zero => rw [Nat.zero_add]; exact h
  | succ k ih => rw [Nat.add_right_comm]; exact (fuelStep_all funs (k + n)).2.2.2.2 ss σ r ih

/-! ## Properties of the rounding -/

theorem ilog2Fuel_spec : ∀ fuel n : Nat, n ≤ fuel → 1 ≤ n →
    2 ^ ilog2Fuel fuel n ≤ n ∧ n < 2 ^ (ilog2Fuel fuel n + 1) := by
  intro fuel
  induction fuel with
  | zero => intro n h0 h1; omega
  | succ fuel ih =>
    intro n hle h1
    rw [ilog2Fuel]
    by_cases h2 : n < 2
    · rw [if_pos h2]
      constructor
      · simpa using h1
      · simpa using h2
    · rw [if_neg h2]
      have hdiv : n / 2 ≤ fuel := by omega
      have hdiv1 : 1 ≤ n / 2 := by omega
      obtain ⟨ha, hb⟩ := ih (n / 2) hdiv hdiv1
      constructor
      · rw [pow_succ]
        omega
      · rw [pow_succ]
        omega

theorem ilog2_spec (n : Nat) (h : 1 ≤ n) : 2 ^ ilog2 n ≤ n ∧ n < 2 ^ (ilog2 n + 1) :=
  ilog2Fuel_spec n n (Nat.le_refl n) h

theorem pow2_eq_zpow (e : Int) : pow2 e = (2 : ℚ) ^ e := by
  unfold pow2
  by_cases h : 0 ≤ e
  · rw [if_pos h]
    obtain ⟨n, rfl⟩ := Int.eq_ofNat_of_zero_le h
    simp
  · rw [if_neg h]
    have hneg : 0 ≤ -e := by omega
    obtain ⟨n, hn⟩ := Int.eq_ofNat_of_zero_le hneg
    have he : e = -(n : Int) := by omega
    subst he
    simp

theorem pow2_pos (e : Int) : 0 < pow2 e := by
  rw [pow2_eq_zpow]
  positivity

theorem abs_eq_natAbs_div (q : ℚ) : |q| = (q.num.natAbs : ℚ) / (q.den : ℚ) := by
  have hden : (0 : ℚ) < (q.den : ℚ) := by exact_mod_cast q.den_pos
  have h1 : ((q.num.natAbs : ℕ) : ℚ) = |(q.num : ℚ)| := by
    rw [Nat.cast_natAbs, Int.cast_abs]
  conv_lhs => rw [← Rat.num_div_den q]
  rw [abs_div, abs_of_pos hden, h1]

/-- The binary exponent is a lower bound: `2^(binade q) ≤ |q|`. -/
theorem binade_le (q : ℚ) (hq : q ≠ 0) : (2 : ℚ) ^ binade q ≤ |q| := by
  have ha1 : 1 ≤ q.num.natAbs := by
    have : q.num ≠ 0 := Rat.num_ne_zero.2 hq
    omega
  have hb1 : 1 ≤ q.den := q.den_pos
  obtain ⟨hla, -⟩ := ilog2_spec q.num.natAbs ha1
  obtain ⟨-, hlb⟩ := ilog2_spec q.den hb1
  have hbpos : (0 : ℚ) < (q.den : ℚ) := by exact_mod_cast q.den_pos
  have h2 : (2 : ℚ) ≠ 0 := by norm_num
  rw [abs_eq_natAbs_div]
  unfold binade
  by_cases hc : q.den * 2 ^ ilog2 q.num.natAbs ≤ q.num.natAbs * 2 ^ ilog2 q.den
  · simp only [hc, if_true]
    rw [zpow_sub₀ h2, zpow_natCast, zpow_natCast, div_le_div_iff₀ (by positivity) hbpos]
    have hcq : ((q.den * 2 ^ ilog2 q.num.natAbs : ℕ) : ℚ) ≤
        ((q.num.natAbs * 2 ^ ilog2 q.den : ℕ) : ℚ) := by exact_mod_cast hc
    push_cast at hcq
    linarith
  · simp only [hc, if_false]
    have he : ((ilog2 q.num.natAbs : ℤ) - (ilog2 q.den : ℤ) - 1) =
        ((ilog2 q.num.natAbs : ℤ) - ((ilog2 q.den + 1 : ℕ) : ℤ)) := by push_cast; ring
    rw [he, zpow_sub₀ h2, zpow_natCast, zpow_natCast, div_le_div_iff₀ (by positivity) hbpos]
    have h1 : ((2 ^ ilog2 q.num.natAbs : ℕ) : ℚ) ≤ (q.num.natAbs : ℚ) := by exact_mod_cast hla
    have h3 : ((q.den : ℕ) : ℚ) ≤ ((2 ^ (ilog2 q.den + 1) : ℕ) : ℚ) := by
      exact_mod_cast hlb.le
    push_cast at h1 h3
    calc (2 : ℚ) ^ ilog2 q.num.natAbs * (q.den : ℚ)
        ≤ (q.num.natAbs : ℚ) * (2 : ℚ) ^ (ilog2 q.den + 1) :=
          mul_le_mul h1 h3 hbpos.le (by positivity)

theorem roundHalfEven_err (y : ℚ) : |(roundHalfEven y : ℚ) - y| ≤ 1 / 2 := by
  have hf : y.num / (y.den : ℤ) = ⌊y⌋ := (Rat.floor_def).symm
  have h0 : (⌊y⌋ : ℚ) ≤ y := Int.floor_le y
  have h1 : y < (⌊y⌋ : ℚ) + 1 := Int.lt_floor_add_one y
  unfold roundHalfEven
  simp only [hf]
  by_cases c1 : y - (⌊y⌋ : ℚ) < 1 / 2
  · rw [if_pos c1, abs_le]
    constructor <;> linarith
  · rw [if_neg c1]
    by_cases c2 : 1 / 2 < y - (⌊y⌋ : ℚ)
    · rw [if_pos c2, abs_le]
      push_cast
      constructor <;> linarith
    · rw [if_neg c2]
      have heq : y - (⌊y⌋ : ℚ) = 1 / 2 := le_antisymm (not_lt.1 c2) (not_lt.1 c1)
      by_cases c3 : ⌊y⌋ % 2 = 0
      · rw [if_pos c3, abs_le]
        constructor <;> linarith
      · rw [if_neg c3, abs_le]
        push_cast
        constructor <;> linarith

theorem roundHalfEven_intCast (z : Int) : roundHalfEven (z : ℚ) = z := by
  unfold roundHalfEven
  simp

/-- Rounding error: at most half a unit in the last place, bounded here by
`(|q| + 1) / 2^53`. -/
theorem roundDouble_err (q : ℚ) : |roundDouble q - q| ≤ (|q| + 1) / 2 ^ 53 := by
  unfold roundDouble
  by_cases hq : q = 0
  · subst hq
    simp
  · rw [if_neg hq]
    set E : ℤ := max (binade q) (-1022) with hE
    have hu : 0 < pow2 (E - 52) := pow2_pos _
    have herr := roundHalfEven_err (q / pow2 (E - 52))
    have hrw : (roundHalfEven (q / pow2 (E - 52)) : ℚ) * pow2 (E - 52) - q =
        ((roundHalfEven (q / pow2 (E - 52)) : ℚ) - q / pow2 (E - 52)) * pow2 (E - 52) := by
      field_simp
    rw [hrw, abs_mul, abs_of_pos hu]
    have h2 : (2 : ℚ) ≠ 0 := by norm_num
    have hupper : pow2 (E - 52) ≤ (|q| + 1) / 2 ^ 52 := by
      rw [pow2_eq_zpow, zpow_sub₀ h2]
      have h52 : (2 : ℚ) ^ (52 : ℤ) = 2 ^ 52 := by norm_num
      rw [h52]
      apply div_le_div_of_nonneg_right _ (by positivity)
      rcases max_cases (binade q) (-1022) with ⟨hm, -⟩ | ⟨hm, -⟩
      · rw [hE, hm]
        have := binade_le q hq
        linarith
      · rw [hE, hm]
        have h1 : (2 : ℚ) ^ (-1022 : ℤ) ≤ 1 := by
          apply zpow_le_one_of_nonpos₀ (by norm_num) (by norm_num)
        have h3 : 0 ≤ |q| := abs_nonneg q
        linarith
    calc |(roundHalfEven (q / pow2 (E - 52)) : ℚ) - q / pow2 (E - 52)| * pow2 (E - 52)
        ≤ 1 / 2 * ((|q| + 1) / 2 ^ 52) :=
          mul_le_mul herr hupper hu.le (by norm_num)
      _ = (|q| + 1) / 2 ^ 53 := by ring

/-- A rounded value of magnitude below `2^1024` is a finite `double`. -/
theorem toDouble_eq_some (q : ℚ) (h : |roundDouble q| < 2 ^ 1024) :
    toDouble q = some (roundDouble q) := by
  unfold toDouble
  rw [if_pos]
  have hden : (0 : ℚ) < ((roundDouble q).den : ℚ) := by
    exact_mod_cast (roundDouble q).den_pos
  rw [abs_eq_natAbs_div, div_lt_iff₀ hden] at h
  have hL : ((DBL_LIMIT : ℕ) : ℚ) = 2 ^ 1024 := by norm_num [DBL_LIMIT]
  have h2 : (((roundDouble q).num.natAbs : ℕ) : ℚ) <
      ((DBL_LIMIT * (roundDouble q).den : ℕ) : ℚ) := by
    rw [Nat.cast_mul, hL]
    exact h
  exact Nat.cast_lt.1 h2

/-- Rounding moves a value by at most its own magnitude plus one. -/
theorem abs_roundDouble_le (q : ℚ) : |roundDouble q| ≤ 2 * |q| + 1 := by
  have herr := roundDouble_err q
  have h0 : 0 ≤ |q| := abs_nonneg q
  have h1 : (|q| + 1) / 2 ^ 53 ≤ |q| + 1 := by
    apply div_le_self (by linarith)
    norm_num
  have h2 : |roundDouble q| ≤ |roundDouble q - q| + |q| := by
    have := abs_add (roundDouble q - q) q
    simpa using this
  linarith

/-- Every integer of magnitude below `2^53` is a `double`. -/
theorem roundDouble_intCast (m : Int) (h : |m| < 2 ^ 53) : roundDouble (m : ℚ) = m := by
  unfold roundDouble
  by_cases hm : (m : ℚ) = 0
  · rw [if_pos hm, hm]
  · rw [if_neg hm]
    have h2 : (2 : ℚ) ≠ 0 := by norm_num
    have hb := binade_le (m : ℚ) hm
    have hmq : |(m : ℚ)| < (2 : ℚ) ^ (53 : ℤ) := by
      have : ((|m| : ℤ) : ℚ) < ((2 ^ 53 : ℤ) : ℚ) := by exact_mod_cast h
      rw [Int.cast_abs] at this
      norm_num at this ⊢
      exact this
    have hlt : binade (m : ℚ) < 53 := by
      have := lt_of_le_of_lt hb hmq
      exact (zpow_lt_zpow_iff_right₀ (by norm_num : (1 : ℚ) < 2)).1 this
    have hE : max (binade (m : ℚ)) (-1022) ≤ 52 := by
      apply max_le <;> omega
    obtain ⟨j, hj⟩ := Int.eq_ofNat_of_zero_le (show 0 ≤ 52 - max (binade (m : ℚ)) (-1022) by omega)
    have hexp : max (binade (m : ℚ)) (-1022) - 52 = -(j : ℤ) := by omega
    rw [hexp, pow2_eq_zpow, zpow_neg, zpow_natCast]
    have hcast : (m : ℚ) / ((2 : ℚ) ^ j)⁻¹ = ((m * 2 ^ j : ℤ) : ℚ) := by
      push_cast
      field_simp
    rw [hcast, roundHalfEven_intCast]
    push_cast
    field_simp

/-- Line 35 in general: with `n ≠ 0` and both operands of 32-bit size, the
correctly rounded quotient `v / n` and its correctly rounded sum with 8 are
finite, the result is within `2^-20` of the rational `8 + v/n`, equals it when
`n` divides `v`, and is no integer when `n` does not divide `v`. -/
theorem roundDouble_eight_add_div (v n : Int) (hn : n ≠ 0) (hv : |v| ≤ 2 ^ 31)
    (hnb : |n| ≤ 2 ^ 31) :
    |roundDouble ((v : ℚ) / (n : ℚ))| < 2 ^ 1024 ∧
    |roundDouble (8 + roundDouble ((v : ℚ) / (n : ℚ)))| < 2 ^ 1024 ∧
    |roundDouble (8 + roundDouble ((v : ℚ) / (n : ℚ))) - (8 + (v : ℚ) / (n : ℚ))| ≤
      1 / 2 ^ 20 ∧
    (n ∣ v → roundDouble (8 + roundDouble ((v : ℚ) / (n : ℚ))) = 8 + (v : ℚ) / (n : ℚ)) ∧
    (¬ n ∣ v → ∀ z : Int,
      roundDouble (8 + roundDouble ((v : ℚ) / (n : ℚ))) ≠ (z : ℚ)) := by
  have hnq : (n : ℚ) ≠ 0 := Int.cast_ne_zero.2 hn
  have hN : (0 : ℚ) < |(n : ℚ)| := abs_pos.2 hnq
  have hN1 : (1 : ℚ) ≤ |(n : ℚ)| := by
    have : (1 : ℤ) ≤ |n| := Int.one_le_abs hn
    have h2 : ((1 : ℤ) : ℚ) ≤ ((|n| : ℤ) : ℚ) := by exact_mod_cast this
    rw [Int.cast_abs] at h2
    simpa using h2
  have hNb : |(n : ℚ)| ≤ 2 ^ 31 := by
    have h2 : ((|n| : ℤ) : ℚ) ≤ ((2 ^ 31 : ℤ) : ℚ) := by exact_mod_cast hnb
    rw [Int.cast_abs] at h2
    simpa using h2
  have hV : |(v : ℚ)| ≤ 2 ^ 31 := by
    have h2 : ((|v| : ℤ) : ℚ) ≤ ((2 ^ 31 : ℤ) : ℚ) := by exact_mod_cast hv
    rw [Int.cast_abs] at h2
    simpa using h2
  set q1 : ℚ := (v : ℚ) / (n : ℚ) with hq1
  set d1 : ℚ := roundDouble q1 with hd1
  set d : ℚ := roundDouble (8 + d1) with hd
  have hq1N : |q1| * |(n : ℚ)| = |(v : ℚ)| := by
    rw [hq1, abs_div, div_mul_cancel₀ _ hN.ne']
  have hq1b : |q1| ≤ 2 ^ 31 := by
    have h0 : 0 ≤ |q1| := abs_nonneg q1
    nlinarith
  have e1 : |d1 - q1| ≤ (|q1| + 1) / 2 ^ 53 := roundDouble_err q1
  have e2 : |d - (8 + d1)| ≤ (|8 + d1| + 1) / 2 ^ 53 := roundDouble_err (8 + d1)
  have h0q : 0 ≤ |q1| := abs_nonneg q1
  have e1' : |d1 - q1| ≤ |q1| + 1 := by
    have : (|q1| + 1) / 2 ^ 53 ≤ |q1| + 1 := div_le_self (by linarith) (by norm_num)
    linarith
  have hd1b : |d1| ≤ 2 * |q1| + 1 := abs_roundDouble_le q1
  have h8 : |8 + d1| ≤ 9 + 2 * |q1| := by
    have := abs_add (8 : ℚ) d1
    have h88 : |(8 : ℚ)| = 8 := by norm_num
    linarith
  have htot : |d - (8 + q1)| ≤ (3 * |q1| + 11) / 2 ^ 53 := by
    have hsplit : d - (8 + q1) = (d - (8 + d1)) + (d1 - q1) := by ring
    have := abs_add (d - (8 + d1)) (d1 - q1)
    rw [← hsplit] at this
    have e2' : |d - (8 + d1)| ≤ (9 + 2 * |q1| + 1) / 2 ^ 53 := by
      apply le_trans e2
      apply div_le_div_of_nonneg_right _ (by positivity)
      linarith
    have : |d - (8 + q1)| ≤ (9 + 2 * |q1| + 1) / 2 ^ 53 + (|q1| + 1) / 2 ^ 53 := by linarith
    have hr : (9 + 2 * |q1| + 1) / 2 ^ 53 + (|q1| + 1) / 2 ^ 53 =
        (3 * |q1| + 11) / 2 ^ 53 := by ring
    linarith
  refine ⟨?_, ?_, ?_, ?_, ?_⟩
  · have : |d1| ≤ 2 * 2 ^ 31 + 1 := by linarith
    have hbig : (2 * 2 ^ 31 + 1 : ℚ) < 2 ^ 1024 := by norm_num
    linarith
  · have hdb : |d| ≤ 2 * |8 + d1| + 1 := abs_roundDouble_le (8 + d1)
    have : |d| ≤ 2 * (9 + 2 * 2 ^ 31) + 1 := by linarith
    have hbig : (2 * (9 + 2 * 2 ^ 31) + 1 : ℚ) < 2 ^ 1024 := by norm_num
    linarith
  · have : (3 * |q1| + 11) / 2 ^ 53 ≤ (3 * 2 ^ 31 + 11) / 2 ^ 53 := by
      apply div_le_div_of_nonneg_right _ (by positivity)
      linarith
    have hnum : ((3 * 2 ^ 31 + 11) / 2 ^ 53 : ℚ) ≤ 1 / 2 ^ 20 := by norm_num
    linarith
  · rintro ⟨m, rfl⟩
    have hq1m : q1 = (m : ℚ) := by
      rw [hq1]
      push_cast
      field_simp
    have hmb : |m| ≤ 2 ^ 31 := by
      have h1 : |n * m| = |n| * |m| := abs_mul n m
      have h2 : 1 ≤ |n| := Int.one_le_abs hn
      have h3 : 0 ≤ |m| := abs_nonneg m
      rw [h1] at hv
      nlinarith
    have hd1m : d1 = (m : ℚ) := by
      rw [hd1, hq1m]
      apply roundDouble_intCast
      have : (2 : ℤ) ^ 31 < 2 ^ 53 := by norm_num
      omega
    have h8m : (8 : ℚ) + (m : ℚ) = ((8 + m : ℤ) : ℚ) := by push_cast; ring
    rw [hd, hd1m, hq1m, h8m]
    apply roundDouble_intCast
    have h1 : |8 + m| ≤ |(8 : ℤ)| + |m| := abs_add 8 m
    have h2 : |(8 : ℤ)| = 8 := by norm_num
    have : (2 : ℤ) ^ 31 + 8 < 2 ^ 53 := by norm_num
    omega
  · intro hndvd z heq
    have hne : (v : ℤ) + (8 - z) * n ≠ 0 := by
      intro h0
      apply hndvd
      refine ⟨z - 8, ?_⟩
      linarith
    have hge : (1 : ℚ) ≤ |((v + (8 - z) * n : ℤ) : ℚ)| := by
      have : (1 : ℤ) ≤ |v + (8 - z) * n| := Int.one_le_abs hne
      have h2 : ((1 : ℤ) : ℚ) ≤ ((|v + (8 - z) * n| : ℤ) : ℚ) := by exact_mod_cast this
      rw [Int.cast_abs] at h2
      simpa using h2
    have hdist : |(z : ℚ) - (8 + q1)| * |(n : ℚ)| = |((v + (8 - z) * n : ℤ) : ℚ)| := by
      rw [← abs_mul]
      have : ((z : ℚ) - (8 + q1)) * (n : ℚ) = -((v + (8 - z) * n : ℤ) : ℚ) := by
        rw [hq1]
        push_cast
        field_simp
        ring
      rw [this, abs_neg]
    rw [heq] at htot
    have hmul : |(z : ℚ) - (8 + q1)| * |(n : ℚ)| ≤
        (3 * |q1| + 11) / 2 ^ 53 * |(n : ℚ)| :=
      mul_le_mul_of_nonneg_right htot hN.le
    have hexp : (3 * |q1| + 11) / 2 ^ 53 * |(n : ℚ)| =
        (3 * |(v : ℚ)| + 11 * |(n : ℚ)|) / 2 ^ 53 := by
      rw [← hq1N]
      ring
    have hsmall : (3 * |(v : ℚ)| + 11 * |(n : ℚ)|) / 2 ^ 53 < 1 := by
      rw [div_lt_one (by positivity)]
      have : (3 * 2 ^ 31 + 11 * 2 ^ 31 : ℚ) < 2 ^ 53 := by norm_num
      linarith
    linarith

/-! ## Evaluation lemmas for the constants of `main.cpp` -/

/-- A value known to round to `d`, with `d` below `2^1024`, gives the `double` `d`. -/
theorem mkDbl_of_roundDouble (q d : ℚ) (h : roundDouble q = d) (hb : |d| < 2 ^ 1024) :
    mkDbl q = some (.dbl d) := by
  unfold mkDbl
  rw [toDouble_eq_some q (by rw [h]; exact hb), h]

/-- An `int` of magnitude below `2^53` converts to `double` exactly. -/
theorem intToDouble_of_lt (n : Int) (h : |n| < 2 ^ 53) : intToDouble n = n :=
  roundDouble_intCast n h

theorem intToDouble_two : intToDouble 2 = 2 := by
  rw [intToDouble_of_lt 2 (by norm_num)]; norm_num

theorem intToDouble_eight : intToDouble 8 = 8 := by
  rw [intToDouble_of_lt 8 (by norm_num)]; norm_num

theorem intToDouble_ten : intToDouble 10 = 10 := by
  rw [intToDouble_of_lt 10 (by norm_num)]; norm_num

/-- Lines 25 and 26: the literal `5.4` denotes the `double` `0x1.599999999999ap+2`. -/
theorem mkDbl_lit_5_4 : mkDbl 5.4 = some (.dbl (3039929748475085 / 562949953421312)) :=
  mkDbl_of_roundDouble _ _
    (Rat.ext (by with_unfolding_all decide) (by with_unfolding_all decide))
    (by norm_num [abs_of_pos])

/-- Line 25: the conversion of that `double` to `int` is 5. -/
theorem castInt_lit : castInt (3039929748475085 / 562949953421312) = some (.int 5) := by
  with_unfolding_all decide

/-- Line 38: the literal `3.2` denotes the `double` `0x1.999999999999ap+1`. -/
theorem mkDbl_lit_3_2 : mkDbl 3.2 = some (.dbl (3602879701896397 / 1125899906842624)) :=
  mkDbl_of_roundDouble _ _
    (Rat.ext (by with_unfolding_all decide) (by with_unfolding_all decide))
    (by norm_num [abs_of_pos])

set_option maxRecDepth 4000 in
/-- Line 38: the square of that `double` rounds to `0x1.47ae147ae147cp+3`. -/
theorem mkDbl_square38 :
    mkDbl ((3602879701896397 / 1125899906842624) ^ 2) =
      some (.dbl (1441151880758559 / 140737488355328)) :=
  mkDbl_of_roundDouble _ _
    (Rat.ext (by with_unfolding_all decide) (by with_unfolding_all decide))
    (by norm_num [abs_of_pos])

/-- Line 38: `pow(3.2, 2)`. -/
theorem builtin_pow_lit :
    builtin "pow" [.dbl (3602879701896397 / 1125899906842624), .int 2] =
      some (some (.dbl (1441151880758559 / 140737488355328))) := by
  simp [builtin, convert, intToDouble_two, mkDbl_square38]

/-- Line 35: the quotient `8.0 / 10` rounds to `0x1.999999999999ap-1`. -/
theorem mkDbl_quotient35 :
    mkDbl (8 / 10) = some (.dbl (3602879701896397 / 4503599627370496)) :=
  mkDbl_of_roundDouble _ _
    (Rat.ext (by with_unfolding_all decide) (by with_unfolding_all decide))
    (by norm_num [abs_of_pos])

/-- Line 35: the sum of 8 and that quotient rounds to `0x1.199999999999ap+3`. -/
theorem mkDbl_sum35 :
    mkDbl (8 + 3602879701896397 / 4503599627370496) =
      some (.dbl (2476979795053773 / 281474976710656)) :=
  mkDbl_of_roundDouble _ _
    (Rat.ext (by with_unfolding_all decide) (by with_unfolding_all decide))
    (by norm_num [abs_of_pos])

/-- Line 21: `std::to_string(1)` is the string 1. -/
theorem builtin_to_string_one :
    builtin "std::to_string" [.int 1] = some (some (.str "1")) := by
  with_unfolding_all decide

/-- The name `add` is no library function. -/
theorem builtin_add (vs : List Val) : builtin "add" vs = none := by
  simp [builtin]

/-- The name `add` resolves to the definition of lines 112-115. -/
theorem findFun_add : findFun "add" program = some add := by
  simp [findFun, program, main, print_test, add]

/-- Decimal rendering of the `int` 1. -/
theorem toString_one : toString (1 : Int) = "1" := by decide

/-! ## Runs of `main` up to given lines -/

/-- With enough fuel, a prefix of `main` that finishes keeps its result. -/
theorem runMainUpTo_fuel (k line : Nat) (argc : Int) (argv : List String)
    (r : Signal × State) (h : runMainUpTo 46 line argc argv = some r) :
    runMainUpTo (k + 46) line argc argv = some r :=
  execSeq_fuel_add program 46 k _ _ r h

/-- The state of `main` after line 25 (`int b = (int)(5.4);`). -/
theorem runMainUpTo_25 (argc : Int) (argv : List String) :
    runMainUpTo 46 25 argc argv = some (.normal,
      { vars := (state29 argc argv).vars.tail,
        out := ["hello", "hello2"],
        trace := [20, 21, 22, 23, 24, 25] }) := by
  simp [runMainUpTo, mainUpTo, Stmt.line, state29,
    main, findFun_add, add, builtin_add, mainBody, stmt26, initState, execSeq, execStmt,
    evalExpr, evalArgs, bindParams, render, State.visit, State.leave, binV, addV, ltV, gtV,
    eqV, divV, subV, promote, mkInt, INT_MIN, INT_MAX, convert, toBool, typeOf, boolToInt,
    lookup, update, chain60, cond60, loop85, tInit, divisor35, mkDbl_lit_5_4, castInt_lit,
    mkDbl_lit_3_2, builtin_pow_lit, builtin_to_string_one, toString_one, intToDouble_eight,
    intToDouble_ten, mkDbl_quotient35, mkDbl_sum35]

/-- The state of `main` after line 29. -/
theorem runMainUpTo_29 (argc : Int) (argv : List String) :
    runMainUpTo 46 29 argc argv = some (.normal, state29 argc argv) := by
  simp [runMainUpTo, mainUpTo, Stmt.line, state29,
    main, findFun_add, add, builtin_add, mainBody, stmt26, initState, execSeq, execStmt,
    evalExpr, evalArgs, bindParams, render, State.visit, State.leave, binV, addV, ltV, gtV,
    eqV, divV, subV, promote, mkInt, INT_MIN, INT_MAX, convert, toBool, typeOf, boolToInt,
    lookup, update, chain60, cond60, loop85, tInit, divisor35, mkDbl_lit_5_4, castInt_lit,
    mkDbl_lit_3_2, builtin_pow_lit, builtin_to_string_one, toString_one, intToDouble_eight,
    intToDouble_ten, mkDbl_quotient35, mkDbl_sum35]

/-- The state of `main` after the comment of lines 30-31. -/
theorem runMainUpTo_31 (argc : Int) (argv : List String) :
    runMainUpTo 46 31 argc argv = some (.normal, state29 argc argv) := by
  simp [runMainUpTo, mainUpTo, Stmt.line, state29,
    main, findFun_add, add, builtin_add, mainBody, stmt26, initState, execSeq, execStmt,
    evalExpr, evalArgs, bindParams, render, State.visit, State.leave, binV, addV, ltV, gtV,
    eqV, divV, subV, promote, mkInt, INT_MIN, INT_MAX, convert, toBool, typeOf, boolToInt,
    lookup, update, chain60, cond60, loop85, tInit, divisor35, mkDbl_lit_5_4, castInt_lit,
    mkDbl_lit_3_2, builtin_pow_lit, builtin_to_string_one, toString_one, intToDouble_eight,
    intToDouble_ten, mkDbl_quotient35, mkDbl_sum35]

/-- The state of `main` after line 32 (`int m = x;`). -/
theorem runMainUpTo_32 (argc : Int) (argv : List String) :
    runMainUpTo 46 32 argc argv = some (.normal,
      { state29 argc argv with
        vars := ("m", .int 5) :: (state29 argc argv).vars,
        trace := (state29 argc argv).trace ++ [32] }) := by
  simp [runMainUpTo, mainUpTo, Stmt.line, state29,
    main, findFun_add, add, builtin_add, mainBody, stmt26, initState, execSeq, execStmt,
    evalExpr, evalArgs, bindParams, render, State.visit, State.leave, binV, addV, ltV, gtV,
    eqV, divV, subV, promote, mkInt, INT_MIN, INT_MAX, convert, toBool, typeOf, boolToInt,
    lookup, update, chain60, cond60, loop85, tInit, divisor35, mkDbl_lit_5_4, castInt_lit,
    mkDbl_lit_3_2, builtin_pow_lit, builtin_to_string_one, toString_one, intToDouble_eight,
    intToDouble_ten, mkDbl_quotient35, mkDbl_sum35]

/-- The state of `main` after line 33. -/
theorem runMainUpTo_33 (argc : Int) (argv : List String) :
    runMainUpTo 46 33 argc argv = some (.normal,
      { state29 argc argv with
        vars := ("q", .bool true) :: ("m", .int 5) :: (state29 argc argv).vars,
        trace := (state29 argc argv).trace ++ [32, 33] }) := by
  simp [runMainUpTo, mainUpTo, Stmt.line, state29,
    main, findFun_add, add, builtin_add, mainBody, stmt26, initState, execSeq, execStmt,
    evalExpr, evalArgs, bindParams, render, State.visit, State.leave, binV, addV, ltV, gtV,
    eqV, divV, subV, promote, mkInt, INT_MIN, INT_MAX, convert, toBool, typeOf, boolToInt,
    lookup, update, chain60, cond60, loop85, tInit, divisor35, mkDbl_lit_5_4, castInt_lit,
    mkDbl_lit_3_2, builtin_pow_lit, builtin_to_string_one, toString_one, intToDouble_eight,
    intToDouble_ten, mkDbl_quotient35, mkDbl_sum35]

/-- The state of `main` after line 34. -/
theorem runMainUpTo_34 (argc : Int) (argv : List String) :
    runMainUpTo 46 34 argc argv = some (.normal, state34 argc argv) := by
  simp [runMainUpTo, mainUpTo, Stmt.line, state34,
    main, findFun_add, add, builtin_add, mainBody, stmt26, initState, execSeq, execStmt,
    evalExpr, evalArgs, bindParams, render, State.visit, State.leave, binV, addV, ltV, gtV,
    eqV, divV, subV, promote, mkInt, INT_MIN, INT_MAX, convert, toBool, typeOf, boolToInt,
    lookup, update, chain60, cond60, loop85, tInit, divisor35, mkDbl_lit_5_4, castInt_lit,
    mkDbl_lit_3_2, builtin_pow_lit, builtin_to_string_one, toString_one, intToDouble_eight,
    intToDouble_ten, mkDbl_quotient35, mkDbl_sum35]

/-- The state of `main` after line 35 (`double t = ...;`). -/
theorem runMainUpTo_35 (argc : Int) (argv : List String) :
    runMainUpTo 46 35 argc argv = some (.normal,
      { state34 argc argv with
        vars := ("t", .dbl (2476979795053773 / 281474976710656)) :: (state34 argc argv).vars,
        trace := (state34 argc argv).trace ++ [35] }) := by
  simp [runMainUpTo, mainUpTo, Stmt.line, state34,
    main, findFun_add, add, builtin_add, mainBody, stmt26, initState, execSeq, execStmt,
    evalExpr, evalArgs, bindParams, render, State.visit, State.leave, binV, addV, ltV, gtV,
    eqV, divV, subV, promote, mkInt, INT_MIN, INT_MAX, convert, toBool, typeOf, boolToInt,
    lookup, update, chain60, cond60, loop85, tInit, divisor35, mkDbl_lit_5_4, castInt_lit,
    mkDbl_lit_3_2, builtin_pow_lit, builtin_to_string_one, toString_one, intToDouble_eight,
    intToDouble_ten, mkDbl_quotient35, mkDbl_sum35]

/-- The state of `main` after line 38. -/
theorem runMainUpTo_38 (argc : Int) (argv : List String) :
    runMainUpTo 46 38 argc argv = some (.normal, state38 argc argv) := by
  simp [runMainUpTo, mainUpTo, Stmt.line, state38,
    main, findFun_add, add, builtin_add, mainBody, stmt26, initState, execSeq, execStmt,
    evalExpr, evalArgs, bindParams, render, State.visit, State.leave, binV, addV, ltV, gtV,
    eqV, divV, subV, promote, mkInt, INT_MIN, INT_MAX, convert, toBool, typeOf, boolToInt,
    lookup, update, chain60, cond60, loop85, tInit, divisor35, mkDbl_lit_5_4, castInt_lit,
    mkDbl_lit_3_2, builtin_pow_lit, builtin_to_string_one, toString_one, intToDouble_eight,
    intToDouble_ten, mkDbl_quotient35, mkDbl_sum35]

/-- The state of `main` after the comment of lines 39-40. -/
theorem runMainUpTo_40 (argc : Int) (argv : List String) :
    runMainUpTo 46 40 argc argv = some (.normal, state38 argc argv) := by
  simp [runMainUpTo, mainUpTo, Stmt.line, state38,
    main, findFun_add, add, builtin_add, mainBody, stmt26, initState, execSeq, execStmt,
    evalExpr, evalArgs, bindParams, render, State.visit, State.leave, binV, addV, ltV, gtV,
    eqV, divV, subV, promote, mkInt, INT_MIN, INT_MAX, convert, toBool, typeOf, boolToInt,
    lookup, update, chain60, cond60, loop85, tInit, divisor35, mkDbl_lit_5_4, castInt_lit,
    mkDbl_lit_3_2, builtin_pow_lit, builtin_to_string_one, toString_one, intToDouble_eight,
    intToDouble_ten, mkDbl_quotient35, mkDbl_sum35]

/-- The state of `main` after the `if` of lines 56-59. -/
theorem runMainUpTo_59 (argc : Int) (argv : List String) :
    runMainUpTo 46 59 argc argv = some (.normal, state59 argc argv) := by
  simp [runMainUpTo, mainUpTo, Stmt.line, state59, state38,
    main, findFun_add, add, builtin_add, mainBody, stmt26, initState, execSeq, execStmt,
    evalExpr, evalArgs, bindParams, render, State.visit, State.leave, binV, addV, ltV, gtV,
    eqV, divV, subV, promote, mkInt, INT_MIN, INT_MAX, convert, toBool, typeOf, boolToInt,
    lookup, update, chain60, cond60, loop85, tInit, divisor35, mkDbl_lit_5_4, castInt_lit,
    mkDbl_lit_3_2, builtin_pow_lit, builtin_to_string_one, toString_one, intToDouble_eight,
    intToDouble_ten, mkDbl_quotient35, mkDbl_sum35]

/-- The state of `main` after the chain of lines 60-84. -/
theorem runMainUpTo_84 (argc : Int) (argv : List String) :
    runMainUpTo 46 84 argc argv = some (.normal, state84 argc argv) := by
  simp [runMainUpTo, mainUpTo, Stmt.line, state84, state38,
    main, findFun_add, add, builtin_add, mainBody, stmt26, initState, execSeq, execStmt,
    evalExpr, evalArgs, bindParams, render, State.visit, State.leave, binV, addV, ltV, gtV,
    eqV, divV, subV, promote, mkInt, INT_MIN, INT_MAX, convert, toBool, typeOf, boolToInt,
    lookup, update, chain60, cond60, loop85, tInit, divisor35, mkDbl_lit_5_4, castInt_lit,
    mkDbl_lit_3_2, builtin_pow_lit, builtin_to_string_one, toString_one, intToDouble_eight,
    intToDouble_ten, mkDbl_quotient35, mkDbl_sum35]

/-- The state of `main` after the loop of lines 85-90. -/
theorem runMainUpTo_90 (argc : Int) (argv : List String) :
    runMainUpTo 46 90 argc argv = some (.normal,
      { state84 argc argv with
        out := (state84 argc argv).out ++ ["hello"],
        trace := (state84 argc argv).trace ++ [85, 87, 88] }) := by
  simp [runMainUpTo, mainUpTo, Stmt.line, state84, state38,
    main, findFun_add, add, builtin_add, mainBody, stmt26, initState, execSeq, execStmt,
    evalExpr, evalArgs, bindParams, render, State.visit, State.leave, binV, addV, ltV, gtV,
    eqV, divV, subV, promote, mkInt, INT_MIN, INT_MAX, convert, toBool, typeOf, boolToInt,
    lookup, update, chain60, cond60, loop85, tInit, divisor35, mkDbl_lit_5_4, castInt_lit,
    mkDbl_lit_3_2, builtin_pow_lit, builtin_to_string_one, toString_one, intToDouble_eight,
    intToDouble_ten, mkDbl_quotient35, mkDbl_sum35]

/-- The state of `main` before the last statement, line 96. -/
theorem runMainUpTo_95 (argc : Int) (argv : List String) :
    runMainUpTo 46 95 argc argv = some (.normal,
      { state38 argc argv with
        out := ["hello", "hello2", "hi", "in range", "None", "hello", "1"],
        trace := [20, 21, 22, 23, 24, 25, 26, 29, 32, 33, 34, 35, 36, 37, 38, 41, 46, 48,
                  52, 54, 56, 60, 77, 83, 85, 87, 88, 91] }) := by
  simp [runMainUpTo, mainUpTo, Stmt.line, state38,
    main, findFun_add, add, builtin_add, mainBody, stmt26, initState, execSeq, execStmt,
    evalExpr, evalArgs, bindParams, render, State.visit, State.leave, binV, addV, ltV, gtV,
    eqV, divV, subV, promote, mkInt, INT_MIN, INT_MAX, convert, toBool, typeOf, boolToInt,
    lookup, update, chain60, cond60, loop85, tInit, divisor35, mkDbl_lit_5_4, castInt_lit,
    mkDbl_lit_3_2, builtin_pow_lit, builtin_to_string_one, toString_one, intToDouble_eight,
    intToDouble_ten, mkDbl_quotient35, mkDbl_sum35]

/-- The complete run of `main` with 46 units of fuel. -/
theorem runMain_46 (argc : Int) (argv : List String) :
    runMain 46 argc argv = some (.normal, stateEnd argc argv) := by
  simp [runMain, stateEnd,
    main, findFun_add, add, builtin_add, mainBody, stmt26, initState, execSeq, execStmt,
    evalExpr, evalArgs, bindParams, render, State.visit, State.leave, binV, addV, ltV, gtV,
    eqV, divV, subV, promote, mkInt, INT_MIN, INT_MAX, convert, toBool, typeOf, boolToInt,
    lookup, update, chain60, cond60, loop85, tInit, divisor35, mkDbl_lit_5_4, castInt_lit,
    mkDbl_lit_3_2, builtin_pow_lit, builtin_to_string_one, toString_one, intToDouble_eight,
    intToDouble_ten, mkDbl_quotient35, mkDbl_sum35]

/-! ## The run of `main` -/

/-- Truth values of the conditions of lines 41, 48, 52 and 56 in `main`. -/
theorem condOnLine_main (k : Nat) (argc : Int) (argv : List String) :
    condOnLine (k + 46) 41 argc argv = some true ∧
    condOnLine (k + 46) 48 argc argv = some false ∧
    condOnLine (k + 46) 52 argc argv = some true ∧
    condOnLine (k + 46) 56 argc argv = some false := by
  refine ⟨?_, ?_, ?_, ?_⟩ <;>
  simp [condOnLine, Stmt.cond?, runMainUpTo, mainUpTo, Stmt.line,
    main, findFun_add, add, builtin_add, mainBody, stmt26, initState, execSeq, execStmt,
    evalExpr, evalArgs, bindParams, render, State.visit, State.leave, binV, addV, ltV, gtV,
    eqV, divV, subV, promote, mkInt, INT_MIN, INT_MAX, convert, toBool, typeOf, boolToInt,
    lookup, update, chain60, cond60, loop85, tInit, divisor35, mkDbl_lit_5_4, castInt_lit,
    mkDbl_lit_3_2, builtin_pow_lit, builtin_to_string_one, toString_one, intToDouble_eight,
    intToDouble_ten, mkDbl_quotient35, mkDbl_sum35]

/-- C1: the assignment `x=5.1` after `int x = 5;` exists only as the comment of
lines 30-31 (the statements of `main` that write `x` are those of lines 29,
37 and 96); running `main` through line 31 gives the state reached after
line 29, in which `x` is the `int` 5; `int m = x;` then makes `m` exactly 5,
`x` is still 5 when line 34 is reached, and `int v = (3+x);` makes `v` 8. -/
theorem C1_type_conflict_skipped (k : Nat) (argc : Int) (argv : List String) :
    mainBody.filter (fun s => decide (29 < s.line ∧ s.line < 32)) =
        [.lineComment 30
          "TODO: Refactor for C++. Variable types cannot change or potential loss of precision occurred",
         .blockComment 31 "x=5.1"] ∧
    (flattenAll mainBody).filter (Stmt.writes "x") =
        [.decl 29 .int "x" (.intLit 5), .assign 37 "x" (.var "v"),
         .assign 96 "x" (.call "add" [.intLit 1, .intLit 2])] ∧
    runMainUpTo (k + 46) 29 argc argv = some (.normal, state29 argc argv) ∧
    runMainUpTo (k + 46) 31 argc argv = some (.normal, state29 argc argv) ∧
    lookup "x" (state29 argc argv).vars = some (.int 5) ∧
    (runMainUpTo (k + 46) 32 argc argv).bind (fun r => lookup "m" r.2.vars) = some (.int 5) ∧
    (runMainUpTo (k + 46) 33 argc argv).bind (fun r => lookup "x" r.2.vars) = some (.int 5) ∧
    (runMainUpTo (k + 46) 34 argc argv).bind (fun r => lookup "v" r.2.vars) = some (.int 8) := by
  refine ⟨by simp [mainBody, Stmt.line, stmt26, chain60, loop85],
    by simp [flattenAll, Stmt.flatten, mainBody, chain60, loop85, stmt26, Stmt.writes],
    runMainUpTo_fuel k 29 argc argv _ (runMainUpTo_29 argc argv),
    runMainUpTo_fuel k 31 argc argv _ (runMainUpTo_31 argc argv), by simp [state29, lookup],
    ?_, ?_, ?_⟩
  · rw [runMainUpTo_fuel k 32 argc argv _ (runMainUpTo_32 argc argv)]
    simp [lookup]
  · rw [runMainUpTo_fuel k 33 argc argv _ (runMainUpTo_33 argc argv)]
    simp [lookup, state29]
  · rw [runMainUpTo_fuel k 34 argc argv _ (runMainUpTo_34 argc argv)]
    simp [lookup, state34]

/-- C2: between line 38 and the `if` of line 41 the body of `main` holds only
the two comment lines of the chained assignment `x = b = 3`; comments execute
nothing in any state, so the state after line 40 is the state after line 38,
in which `x` is 8 and `b` is 5; the complete run of `main` executes no
statement on lines 39-40, and line 25 is the only statement that writes `b`. -/
theorem C2_chained_assignment_emits_nothing (k : Nat) (argc : Int) (argv : List String) :
    mainBody.filter (fun s => decide (38 < s.line ∧ s.line < 41)) =
        [.lineComment 39 "TODO: Unable to translate chained assignment",
         .blockComment 40 "x = b = 3"] ∧
    (∀ σ : State, execSeq program (k + 3)
        [.lineComment 39 "TODO: Unable to translate chained assignment",
         .blockComment 40 "x = b = 3"] σ = some (.normal, σ)) ∧
    runMainUpTo (k + 46) 38 argc argv = some (.normal, state38 argc argv) ∧
    runMainUpTo (k + 46) 40 argc argv = some (.normal, state38 argc argv) ∧
    lookup "x" (state38 argc argv).vars = some (.int 8) ∧
    lookup "b" (state38 argc argv).vars = some (.int 5) ∧
    runMain (k + 46) argc argv = some (.normal, stateEnd argc argv) ∧
    (stateEnd argc argv).trace.filter (fun l => decide (38 < l ∧ l < 41)) = [] ∧
    (flattenAll mainBody).filter (Stmt.writes "b") =
        [.decl 25 .int "b" (.cast .int (.dblLit 5.4))] := by
  refine ⟨by simp [mainBody, Stmt.line, stmt26, chain60, loop85], ?_,
    runMainUpTo_fuel k 38 argc argv _ (runMainUpTo_38 argc argv),
    runMainUpTo_fuel k 40 argc argv _ (runMainUpTo_40 argc argv),
    by simp [state38, lookup], by simp [state38, lookup],
    execSeq_fuel_add program 46 k _ _ _ (runMain_46 argc argv), by simp [stateEnd],
    by simp [flattenAll, Stmt.flatten, mainBody, chain60, loop85, stmt26, Stmt.writes]⟩
  intro σ
  simp [execSeq, execStmt]

/-- C9: for every `argc` and `argv` the run of `main` terminates normally; it
writes exactly the lines hello, hello2, hi, in range, None, hello, 1; the
conditions of lines 41 and 52 are true and those of lines 48 and 56 false;
no statement of `print_test` (lines 99-110) or `abc` (lines 117-122) is
executed; and `x` is 3 at the end. -/
theorem C9_main_output (k : Nat) (argc : Int) (argv : List String) :
    runMain (k + 46) argc argv = some (.normal, stateEnd argc argv) ∧
    (stateEnd argc argv).out = ["hello", "hello2", "hi", "in range", "None", "hello", "1"] ∧
    condOnLine (k + 46) 41 argc argv = some true ∧
    condOnLine (k + 46) 48 argc argv = some false ∧
    condOnLine (k + 46) 52 argc argv = some true ∧
    condOnLine (k + 46) 56 argc argv = some false ∧
    (∀ l ∈ (stateEnd argc argv).trace,
        ¬ (print_test.line ≤ l ∧ l ≤ 110) ∧ ¬ (abc.line ≤ l ∧ l ≤ 122)) ∧
    lookup "x" (stateEnd argc argv).vars = some (.int 3) := by
  obtain ⟨h41, h48, h52, h56⟩ := condOnLine_main k argc argv
  refine ⟨execSeq_fuel_add program 46 k _ _ _ (runMain_46 argc argv), rfl,
    h41, h48, h52, h56, ?_, by simp [stateEnd, lookup]⟩
  simp [stateEnd, print_test, abc]

/-! ## The comments and the discarded value of `main` -/

/-- C5, as stated, fails on line 14: the comment there reads
`TODO: Constant string not used`, in which the reason string
`Constant/value not used` does not occur. -/
theorem C5_reason_string_mismatch :
    (skipComments (flattenAll mainBody)).filter (fun c => c.1 == 14) =
        [(14, "TODO: Constant string not used", some "\"Hi\"")] ∧
    carries "TODO: Constant string not used" "Constant/value not used" = false := by
  constructor
  · simp [skipComments, flattenAll, Stmt.flatten, mainBody, chain60, loop85, stmt26]
  · decide

/-- C5, amended: the `//TODO:` comments of the program are exactly the eight
of `main` listed here with their texts, each followed on the next line by a
block comment holding the skipped text; the other functions have none.  The
texts of lines 92 and 94 are the reason strings of the classifier table, the
text of line 27 begins with one, and the texts of lines 14, 16, 18, 30 and 39
carry none of the table's strings. -/
theorem C5_skip_comment_texts :
    skipComments (flattenAll mainBody) =
      [(14, "TODO: Constant string not used", some "\"Hi\""),
       (16, "TODO: Constant not used", some "1"),
       (18, "TODO: Value not assigned or used", some "1 < 3"),
       (27, "TODO: Code not directly translatable, manual port required", some "ls = [1,2,3]"),
       (30, "TODO: Refactor for C++. Variable types cannot change or potential loss of precision occurred",
          some "x=5.1"),
       (39, "TODO: Unable to translate chained assignment", some "x = b = 3"),
       (92, "TODO: Call to function not in scope", some "tester = Tester(2)"),
       (94, "TODO: Not a valid call", some "tester.test()")] ∧
    skipComments (flattenAll print_test.body) = [] ∧
    skipComments (flattenAll add.body) = [] ∧
    skipComments (flattenAll abc.body) = [] ∧
    (skipComments (flattenAll mainBody)).map
        (fun c => [ "Constant/value not used",
                    "Refactor required: type cannot change without precision loss",
                    "Chained assignment not translatable",
                    "Code not directly translatable",
                    "Call to function not in scope",
                    "Not a valid call" ].filter (carries c.2.1)) =
      [[], [], [], ["Code not directly translatable"], [], [],
       ["Call to function not in scope"], ["Not a valid call"]] := by
  have h : skipComments (flattenAll mainBody) =
      [(14, "TODO: Constant string not used", some "\"Hi\""),
       (16, "TODO: Constant not used", some "1"),
       (18, "TODO: Value not assigned or used", some "1 < 3"),
       (27, "TODO: Code not directly translatable, manual port required", some "ls = [1,2,3]"),
       (30, "TODO: Refactor for C++. Variable types cannot change or potential loss of precision occurred",
          some "x=5.1"),
       (39, "TODO: Unable to translate chained assignment", some "x = b = 3"),
       (92, "TODO: Call to function not in scope", some "tester = Tester(2)"),
       (94, "TODO: Not a valid call", some "tester.test()")] := by
    simp [skipComments, flattenAll, Stmt.flatten, mainBody, chain60, loop85, stmt26]
  refine ⟨h, ?_, ?_, ?_, ?_⟩
  · simp [skipComments, flattenAll, Stmt.flatten, print_test]
  · simp [skipComments, flattenAll, Stmt.flatten, add]
  · simp [skipComments, flattenAll, Stmt.flatten, abc]
  · rw [h]
    decide

/-! ## Casts, division and `add` -/

/-- On a non-negative value below `2^31` the conversion to `int` is the floor. -/
theorem castInt_of_nonneg (r : ℚ) (h0 : 0 ≤ r) (hmax : r < (INT_MAX : ℚ) + 1) :
    castInt r = some (.int ⌊r⌋) := by
  have hnum : 0 ≤ r.num := Rat.num_nonneg.2 h0
  have hden : (0 : Int) ≤ (r.den : Int) := Int.ofNat_nonneg _
  have hfl : Int.tdiv r.num r.den = ⌊r⌋ := by
    rw [Int.tdiv_eq_ediv hnum hden, Rat.floor_def]
  have h1 : 0 ≤ ⌊r⌋ := Int.floor_nonneg.2 h0
  have h2 : ⌊r⌋ < INT_MAX + 1 := by
    rw [Int.floor_lt]
    push_cast
    exact hmax
  unfold castInt mkInt
  rw [hfl, if_pos]
  constructor
  · unfold INT_MIN
    omega
  · omega

/-- The value `2^31` does not fit `int`: its conversion is undefined. -/
theorem castInt_two_pow_31 : castInt 2147483648 = none := by
  with_unfolding_all decide

/-- The value `2^31` is a `double`. -/
theorem mkDbl_two_pow_31 : mkDbl 2147483648 = some (.dbl 2147483648) := by
  have h : roundDouble ((2147483648 : Int) : ℚ) = ((2147483648 : Int) : ℚ) :=
    roundDouble_intCast 2147483648 (by norm_num)
  have h2 : roundDouble 2147483648 = 2147483648 := by exact_mod_cast h
  exact mkDbl_of_roundDouble _ _ h2 (by norm_num [abs_of_pos])

/-- The literal `5.99999999999999999` denotes the `double` 6. -/
theorem mkDbl_lit_near_six : mkDbl 5.99999999999999999 = some (.dbl 6) :=
  mkDbl_of_roundDouble _ _
    (Rat.ext (by with_unfolding_all decide) (by with_unfolding_all decide))
    (by norm_num [abs_of_pos])

/-- The conversion of the `double` 6 to `int` is 6. -/
theorem castInt_six : castInt 6 = some (.int 6) := by
  with_unfolding_all decide

/-- C4, as stated, fails in two ways.  The non-negative value `2^31` is a
`double` whose floor `2^31` no `int` holds: the cast `(int)(2147483648.0)`
has no defined result, whatever the fuel.  And the non-negative rational
`5.99999999999999999` has floor 5, but as a `double` literal it denotes 6.0,
so the cast yields 6: the operand of a cast is a `double`, not an arbitrary
rational. -/
theorem C4_cast_counterexamples :
    ((0 : ℚ) ≤ 2147483648 ∧ ⌊(2147483648 : ℚ)⌋ = 2147483648 ∧
      ∀ (fuel : Nat) (σ : State),
        evalExpr program fuel (.cast .int (.dblLit 2147483648)) σ = none) ∧
    ((0 : ℚ) ≤ 5.99999999999999999 ∧ ⌊(5.99999999999999999 : ℚ)⌋ = 5 ∧
      ∀ (k : Nat) (σ : State),
        evalExpr program (k + 2) (.cast .int (.dblLit 5.99999999999999999)) σ =
          some (.int 6, σ)) := by
  refine ⟨⟨by norm_num, ?_, ?_⟩, ⟨by norm_num, ?_, ?_⟩⟩
  · exact Int.floor_intCast (2147483648 : Int)
  · intro fuel σ
    rcases fuel with _ | _ | n
    · simp [evalExpr]
    · simp [evalExpr]
    · simp [evalExpr, convert, mkDbl_two_pow_31, castInt_two_pow_31]
  · rw [Int.floor_eq_iff]
    constructor <;> norm_num
  · intro k σ
    simp [evalExpr, convert, mkDbl_lit_near_six, castInt_six]

/-- C4, amended: for every `double` value `r` with `0 ≤ r < 2^31` the cast
`(int)(r)`, of a literal or of a variable holding `r`, yields the floor of
`r`, hence never the nearest integer when the two differ.  In `main` the
literal `5.4` denotes a `double` with floor 5 and `int b = (int)(5.4);` gives
`b` the value 5.  Line 25 is the only statement of `main` that writes `b`
and line 62 the only one that reads it; `b` is 5 in the state in which the
chain holding line 62 is entered and when `main` ends, and in every state
with `b = 5` the comparison of line 62 reads it as 5. -/
theorem C4_cast_truncates (r : ℚ) (k : Nat) (argc : Int) (argv : List String)
    (hd : toDouble r = some r) (h0 : 0 ≤ r) (hmax : r < (INT_MAX : ℚ) + 1) :
    (∀ σ : State,
      evalExpr program (k + 2) (.cast .int (.dblLit r)) σ = some (.int ⌊r⌋, σ)) ∧
    (∀ (σ : State) (name : String), lookup name σ.vars = some (.dbl r) →
      evalExpr program (k + 2) (.cast .int (.var name)) σ = some (.int ⌊r⌋, σ)) ∧
    (round r ≠ ⌊r⌋ → ∀ σ : State,
      evalExpr program (k + 2) (.cast .int (.dblLit r)) σ ≠ some (.int (round r), σ)) ∧
    mkDbl 5.4 = some (.dbl (3039929748475085 / 562949953421312)) ∧
    ⌊(3039929748475085 / 562949953421312 : ℚ)⌋ = 5 ∧
    (runMainUpTo (k + 46) 25 argc argv).bind (fun s => lookup "b" s.2.vars) = some (.int 5) ∧
    ((flattenAll mainBody).filter (Stmt.writes "b")).map Stmt.line = [25] ∧
    ((flattenAll mainBody).filter (Stmt.reads "b")).map Stmt.line = [62] ∧
    runMainUpTo (k + 46) 59 argc argv = some (.normal, state59 argc argv) ∧
    lookup "b" (state59 argc argv).vars = some (.int 5) ∧
    lookup "b" (stateEnd argc argv).vars = some (.int 5) ∧
    (∀ (σ : State) (x : Int), lookup "b" σ.vars = some (.int 5) →
      lookup "x" σ.vars = some (.int x) →
      evalExpr program (k + 2) (.bin .eq (.var "x") (.var "b")) σ =
        some (.bool (decide (x = 5)), σ)) := by
  have hmk : mkDbl r = some (.dbl r) := by
    unfold mkDbl
    rw [hd]
  have hcast : ∀ σ : State,
      evalExpr program (k + 2) (.cast .int (.dblLit r)) σ = some (.int ⌊r⌋, σ) := by
    intro σ
    simp [evalExpr, convert, hmk, castInt_of_nonneg r h0 hmax]
  refine ⟨hcast, ?_, ?_, mkDbl_lit_5_4, ?_, ?_,
    by simp [flattenAll, Stmt.flatten, mainBody, chain60, loop85, stmt26, Stmt.writes,
      Stmt.line],
    by simp [flattenAll, Stmt.flatten, mainBody, chain60, cond60, loop85, stmt26, tInit,
      divisor35, Stmt.reads, Expr.reads, readsAny, Stmt.line],
    runMainUpTo_fuel k 59 argc argv _ (runMainUpTo_59 argc argv),
    by simp [state59, state38, lookup], by simp [stateEnd, lookup], ?_⟩
  · intro σ name hl
    simp [evalExpr, convert, hl, castInt_of_nonneg r h0 hmax]
  · intro hne σ heq
    rw [hcast σ] at heq
    simp only [Option.some.injEq, Prod.mk.injEq, Val.int.injEq, and_true] at heq
    exact hne heq.symm
  · rw [Int.floor_eq_iff]
    constructor <;> norm_num
  · rw [runMainUpTo_fuel k 25 argc argv _ (runMainUpTo_25 argc argv)]
    simp [state29, lookup]
  · intro σ x hb hx
    simp [evalExpr, binV, eqV, promote, hb, hx]

/-- The value 5.5 is a `double`. -/
theorem toDouble_five_and_half : toDouble 5.5 = some 5.5 := by
  have h : roundDouble 5.5 = 5.5 :=
    Rat.ext (by with_unfolding_all decide) (by with_unfolding_all decide)
  rw [toDouble_eq_some 5.5 (by rw [h]; norm_num [abs_of_pos]), h]

/-- Instance of the amended C4 at the `double` 5.5, whose floor is 5 and whose
nearest integer is 6: the cast yields 5 and not 6. -/
theorem C4_cast_truncates_witness :
    toDouble 5.5 = some 5.5 ∧ (0 : ℚ) ≤ 5.5 ∧ (5.5 : ℚ) < (INT_MAX : ℚ) + 1 ∧
    ⌊(5.5 : ℚ)⌋ = 5 ∧ round (5.5 : ℚ) = 6 ∧
    evalExpr program 2 (.cast .int (.dblLit 5.5)) (initState 1 []) =
      some (.int ⌊(5.5 : ℚ)⌋, initState 1 []) ∧
    evalExpr program 2 (.cast .int (.dblLit 5.5)) (initState 1 []) ≠
      some (.int (round (5.5 : ℚ)), initState 1 []) := by
  have hfloor : ⌊(5.5 : ℚ)⌋ = 5 := by
    rw [Int.floor_eq_iff]
    constructor <;> norm_num
  have hround : round (5.5 : ℚ) = 6 := by
    rw [round_eq, Int.floor_eq_iff]
    constructor <;> norm_num
  have hne : round (5.5 : ℚ) ≠ ⌊(5.5 : ℚ)⌋ := by
    rw [hfloor, hround]
    decide
  exact ⟨toDouble_five_and_half, by norm_num, by norm_num [INT_MAX], hfloor, hround,
    (C4_cast_truncates 5.5 0 1 [] toDouble_five_and_half (by norm_num)
      (by norm_num [INT_MAX])).1 (initState 1 []),
    (C4_cast_truncates 5.5 0 1 [] toDouble_five_and_half (by norm_num)
      (by norm_num [INT_MAX])).2.2.1 hne (initState 1 [])⟩

/-- Line 35 in general: for `int` values `v` and `x` with a non-zero,
non-overflowing divisor the initialiser of `t` evaluates to the rounded sum
of 8 and the rounded quotient. -/
theorem evalExpr_tInit (v x : Int) (σ : State) (k : Nat)
    (hv : lookup "v" σ.vars = some (.int v)) (hx : lookup "x" σ.vars = some (.int x))
    (hvlo : INT_MIN ≤ v) (hvhi : v ≤ INT_MAX)
    (hne : x ≠ -5) (hlo : INT_MIN ≤ x) (hhi : x ≤ INT_MAX - 5) :
    evalExpr program (k + 5) tInit σ =
      some (.dbl (roundDouble (8 + roundDouble ((v : ℚ) / ((5 + x : Int) : ℚ)))), σ) := by
  have hr1 : (-2147483648 : Int) ≤ 5 + x := by unfold INT_MIN at hlo; omega
  have hr2 : 5 + x ≤ (2147483647 : Int) := by unfold INT_MAX at hhi; omega
  have hn : (5 : Int) + x ≠ 0 := by omega
  have hvb : |v| ≤ 2 ^ 31 := by
    unfold INT_MIN at hvlo; unfold INT_MAX at hvhi
    rw [abs_le]; constructor <;> omega
  have hnb : |5 + x| ≤ 2 ^ 31 := by
    rw [abs_le]; constructor <;> omega
  obtain ⟨b1, b2, -, -, -⟩ := roundDouble_eight_add_div v (5 + x) hn hvb hnb
  have hiv : intToDouble v = v := intToDouble_of_lt v (by
    have : (2 : Int) ^ 31 < 2 ^ 53 := by norm_num
    omega)
  have hin : intToDouble (5 + x) = ((5 + x : Int) : ℚ) := intToDouble_of_lt (5 + x) (by
    have : (2 : Int) ^ 31 < 2 ^ 53 := by norm_num
    omega)
  have hq : mkDbl ((v : ℚ) / ((5 + x : Int) : ℚ)) =
      some (.dbl (roundDouble ((v : ℚ) / ((5 + x : Int) : ℚ)))) :=
    mkDbl_of_roundDouble _ _ rfl b1
  have hs : mkDbl (8 + roundDouble ((v : ℚ) / ((5 + x : Int) : ℚ))) =
      some (.dbl (roundDouble (8 + roundDouble ((v : ℚ) / ((5 + x : Int) : ℚ))))) :=
    mkDbl_of_roundDouble _ _ rfl b2
  have hnq : ((5 + x : Int) : ℚ) ≠ 0 := Int.cast_ne_zero.2 hn
  push_cast at hq hs hin hnq
  simp [tInit, divisor35, evalExpr, binV, addV, divV, promote, mkInt, convert, hv, hx,
    INT_MIN, INT_MAX, hr1, hr2, hiv, hin, hq, hs, hnq, intToDouble_eight]

/-- Line 35 with the values of `main`: the two roundings. -/
theorem roundDouble_line35 :
    roundDouble (8 + roundDouble (((8 : Int) : ℚ) / ((5 + 5 : Int) : ℚ))) =
      2476979795053773 / 281474976710656 := by
  have h1 : roundDouble (8 / 10) = 3602879701896397 / 4503599627370496 :=
    Rat.ext (by with_unfolding_all decide) (by with_unfolding_all decide)
  have h2 : roundDouble (8 + 3602879701896397 / 4503599627370496) =
      2476979795053773 / 281474976710656 :=
    Rat.ext (by with_unfolding_all decide) (by with_unfolding_all decide)
  have h3 : (((8 : Int) : ℚ) / ((5 + 5 : Int) : ℚ)) = 8 / 10 := by norm_num
  rw [h3, h1, h2]

/-- C8, as stated, fails in three ways.  With `v = 8` and `x = 2147483647`
(which is not -5) the divisor `(3+2)+x` overflows `int`, so the initialiser of
`t` has no defined value, whatever the fuel.  With `v = 0` and `x = 0` the
value is 8, which is `8 + (0 div 5)`, the integer-division result the claim
excludes.  And with the values of `main`, `v = 8` and `x = 5`, the value is the
`double` `0x1.199999999999ap+3`, which is not the rational `8 + 8/10 = 44/5`. -/
theorem C8_counterexamples :
    ((2147483647 : Int) ≠ -5 ∧ INT_MIN ≤ 2147483647 ∧ (2147483647 : Int) ≤ INT_MAX ∧
      ∀ (fuel : Nat) (out : List String) (trace : List Nat),
        evalExpr program fuel tInit
          { vars := [("v", .int 8), ("x", .int 2147483647)], out := out, trace := trace } =
          none) ∧
    ((0 : Int) ≠ -5 ∧
      (∀ (k : Nat) (out : List String) (trace : List Nat),
        evalExpr program (k + 5) tInit
          { vars := [("v", .int 0), ("x", .int 0)], out := out, trace := trace } =
          some (.dbl 8, { vars := [("v", .int 0), ("x", .int 0)], out := out,
                          trace := trace })) ∧
      (8 : ℚ) = 8 + ((Int.tdiv 0 (5 + 0) : Int) : ℚ)) ∧
    ((5 : Int) ≠ -5 ∧
      (∀ (k : Nat) (out : List String) (trace : List Nat),
        evalExpr program (k + 5) tInit
          { vars := [("v", .int 8), ("x", .int 5)], out := out, trace := trace } =
          some (.dbl (2476979795053773 / 281474976710656),
            { vars := [("v", .int 8), ("x", .int 5)], out := out, trace := trace })) ∧
      (2476979795053773 / 281474976710656 : ℚ) ≠
        8 + ((8 : Int) : ℚ) / ((5 + 5 : Int) : ℚ) ∧
      (8 : ℚ) + ((8 : Int) : ℚ) / ((5 + 5 : Int) : ℚ) = 44 / 5) := by
  refine ⟨⟨by decide, by decide, by decide, ?_⟩, ⟨by decide, ?_, ?_⟩,
    ⟨by decide, ?_, by norm_num, by norm_num⟩⟩
  · intro fuel out trace
    rcases Nat.lt_or_ge fuel 5 with h | h
    · interval_cases fuel <;>
        simp [tInit, divisor35, evalExpr, binV, addV, divV, promote, mkInt, INT_MIN, INT_MAX,
          convert, lookup]
    · obtain ⟨k, rfl⟩ := Nat.exists_eq_add_of_le' h
      simp [tInit, divisor35, evalExpr, binV, addV, divV, promote, mkInt, INT_MIN, INT_MAX,
        convert, lookup]
  · intro k out trace
    rw [evalExpr_tInit 0 0 _ k (by simp [lookup]) (by simp [lookup]) (by decide) (by decide)
      (by decide) (by decide) (by decide)]
    have h := (roundDouble_eight_add_div 0 (5 + 0) (by decide) (by norm_num)
      (by norm_num)).2.2.2.1 (by norm_num)
    rw [h]
    norm_num
  · simp [Int.tdiv]
  · intro k out trace
    rw [evalExpr_tInit 8 5 _ k (by simp [lookup]) (by simp [lookup]) (by decide) (by decide)
      (by decide) (by decide) (by decide), roundDouble_line35]

/-- C8, amended: for all `int` values `v` and `x` with `x ≠ -5` and
`x ≤ INT_MAX - 5` (the divisor `(3+2)+x` does not overflow) the quotient
`v / (5+x)` and its sum with 8 are computed in `double`, each correctly
rounded: there are finite doubles `d1` and `d` with `d1` the rounded true
quotient and `d` the rounded sum `8 + d1`, and the initialiser
`((3+5)+((double)v / ((3+2)+x)))` evaluates to `d`.  This `d` lies within
`2^-20` of the rational `8 + v/(5+x)`, equals it when `5+x` divides `v`, and
differs from `8 + (v div (5+x))` (indeed from every integer) whenever `5+x`
does not divide `v`.  In `main`, where `v = 8` and `x = 5`, the divisor is 10
and `t` becomes the double nearest to `44/5`, `0x1.199999999999ap+3`, not the
integer-division result `8 + (8 div 10) = 8`. -/
theorem C8_true_division (v x : Int) (σ : State) (k : Nat) (argc : Int) (argv : List String)
    (hv : lookup "v" σ.vars = some (.int v)) (hx : lookup "x" σ.vars = some (.int x))
    (hvlo : INT_MIN ≤ v) (hvhi : v ≤ INT_MAX)
    (hne : x ≠ -5) (hlo : INT_MIN ≤ x) (hhi : x ≤ INT_MAX - 5) :
    (∃ d1 d : ℚ,
      toDouble ((v : ℚ) / ((5 + x : Int) : ℚ)) = some d1 ∧
      toDouble (8 + d1) = some d ∧
      evalExpr program (k + 5) tInit σ = some (.dbl d, σ) ∧
      |d - (8 + (v : ℚ) / ((5 + x : Int) : ℚ))| ≤ 1 / 2 ^ 20 ∧
      ((5 + x) ∣ v → d = 8 + (v : ℚ) / ((5 + x : Int) : ℚ)) ∧
      (¬ (5 + x) ∣ v → d ≠ 8 + ((Int.tdiv v (5 + x) : Int) : ℚ)) ∧
      (¬ (5 + x) ∣ v → ∀ z : Int, d ≠ (z : ℚ))) ∧
    runMainUpTo (k + 46) 34 argc argv = some (.normal, state34 argc argv) ∧
    lookup "v" (state34 argc argv).vars = some (.int 8) ∧
    lookup "x" (state34 argc argv).vars = some (.int 5) ∧
    evalExpr program (k + 3) divisor35 (state34 argc argv) =
      some (.int 10, state34 argc argv) ∧
    (runMainUpTo (k + 46) 35 argc argv).bind (fun s => lookup "t" s.2.vars) =
      some (.dbl (2476979795053773 / 281474976710656)) ∧
    toDouble (44 / 5) = some (2476979795053773 / 281474976710656) ∧
    binV .div (.int 8) (.int 10) = some (.int 0) ∧
    (2476979795053773 / 281474976710656 : ℚ) ≠ 8 + ((0 : Int) : ℚ) := by
  have hr1 : (-2147483648 : Int) ≤ 5 + x := by unfold INT_MIN at hlo; omega
  have hr2 : 5 + x ≤ (2147483647 : Int) := by unfold INT_MAX at hhi; omega
  have hn : (5 : Int) + x ≠ 0 := by omega
  have hvb : |v| ≤ 2 ^ 31 := by
    unfold INT_MIN at hvlo; unfold INT_MAX at hvhi
    rw [abs_le]; constructor <;> omega
  have hnb : |5 + x| ≤ 2 ^ 31 := by
    rw [abs_le]; constructor <;> omega
  obtain ⟨b1, b2, herr, hdvd, hndvd⟩ := roundDouble_eight_add_div v (5 + x) hn hvb hnb
  refine ⟨⟨roundDouble ((v : ℚ) / ((5 + x : Int) : ℚ)),
      roundDouble (8 + roundDouble ((v : ℚ) / ((5 + x : Int) : ℚ))),
      toDouble_eq_some _ b1, toDouble_eq_some _ b2,
      evalExpr_tInit v x σ k hv hx hvlo hvhi hne hlo hhi, herr, hdvd, ?_, hndvd⟩,
    runMainUpTo_fuel k 34 argc argv _ (runMainUpTo_34 argc argv),
    by simp [state34, lookup], by simp [state34, lookup], ?_, ?_, ?_,
    by simp [binV, divV, promote, mkInt, INT_MIN, INT_MAX, Int.tdiv], by norm_num⟩
  · intro h
    have h8 : (8 : ℚ) + ((Int.tdiv v (5 + x) : Int) : ℚ) =
        ((8 + Int.tdiv v (5 + x) : Int) : ℚ) := by
      push_cast; ring
    rw [h8]
    exact hndvd h _
  · simp [divisor35, evalExpr, binV, addV, promote, mkInt, INT_MIN, INT_MAX, state34, lookup]
  · rw [runMainUpTo_fuel k 35 argc argv _ (runMainUpTo_35 argc argv)]
    simp [lookup]
  · have h : roundDouble (44 / 5) = 2476979795053773 / 281474976710656 :=
      Rat.ext (by with_unfolding_all decide) (by with_unfolding_all decide)
    rw [toDouble_eq_some (44 / 5) (by rw [h]; norm_num [abs_of_pos]), h]

/-- Instance of the amended C8 at the state of `main` before line 35, where
`5 + x = 10` does not divide `v = 8`: the value is the `double`
`0x1.199999999999ap+3`. -/
theorem C8_true_division_witness :
    lookup "v" (state34 1 []).vars = some (.int 8) ∧
    lookup "x" (state34 1 []).vars = some (.int 5) ∧
    INT_MIN ≤ 8 ∧ (8 : Int) ≤ INT_MAX ∧
    (5 : Int) ≠ -5 ∧ INT_MIN ≤ 5 ∧ (5 : Int) ≤ INT_MAX - 5 ∧
    ¬ ((5 : Int) + 5) ∣ 8 ∧
    ∃ d1 d : ℚ,
      toDouble (((8 : Int) : ℚ) / ((5 + 5 : Int) : ℚ)) = some d1 ∧
      toDouble (8 + d1) = some d ∧
      evalExpr program (0 + 5) tInit (state34 1 []) = some (.dbl d, state34 1 []) ∧
      |d - (8 + ((8 : Int) : ℚ) / ((5 + 5 : Int) : ℚ))| ≤ 1 / 2 ^ 20 ∧
      ((5 + 5) ∣ (8 : Int) → d = 8 + ((8 : Int) : ℚ) / ((5 + 5 : Int) : ℚ)) ∧
      (¬ (5 + 5) ∣ (8 : Int) → d ≠ 8 + ((Int.tdiv 8 (5 + 5) : Int) : ℚ)) ∧
      (¬ (5 + 5) ∣ (8 : Int) → ∀ z : Int, d ≠ (z : ℚ)) :=
  ⟨by simp [state34, lookup], by simp [state34, lookup], by decide, by decide, by decide,
    by decide, by decide, by decide,
    (C8_true_division 8 5 (state34 1 []) 0 1 [] (by simp [state34, lookup])
      (by simp [state34, lookup]) (by decide) (by decide) (by decide) (by decide)
      (by decide)).1⟩

/-- C10: for all `int` values `a` and `b` whose sum is in the `int` range the
call `add(a, b)` returns `a + b`; it writes nothing and changes no variable of
the caller (only the `return` of line 114 is executed); `add(a, b)` and
`add(b, a)` return the same value; `add(1, 2)` is 3, the value that
`x = add(1, 2);` stores in `x` at the end of `main`, where `x` was 8. -/
theorem C10_add_is_sum (a b : Int) (σ : State) (k : Nat) (argc : Int) (argv : List String)
    (hs : INT_MIN ≤ a + b ∧ a + b ≤ INT_MAX) :
    evalExpr program (k + 5) (.call "add" [.intLit a, .intLit b]) σ =
      some (.int (a + b), σ.visit 114) ∧
    (σ.visit 114).vars = σ.vars ∧ (σ.visit 114).out = σ.out ∧
    (evalExpr program (k + 5) (.call "add" [.intLit a, .intLit b]) σ).map (fun r => r.1) =
      (evalExpr program (k + 5) (.call "add" [.intLit b, .intLit a]) σ).map (fun r => r.1) ∧
    evalExpr program (k + 5) (.call "add" [.intLit 1, .intLit 2]) σ =
      some (.int 3, σ.visit 114) ∧
    mainBody.getLast? = some (.assign 96 "x" (.call "add" [.intLit 1, .intLit 2])) ∧
    (runMainUpTo (k + 46) 95 argc argv).bind (fun s => lookup "x" s.2.vars) = some (.int 8) ∧
    runMain (k + 46) argc argv = some (.normal, stateEnd argc argv) ∧
    lookup "x" (stateEnd argc argv).vars = some (.int 3) := by
  have hcall : ∀ c d : Int, INT_MIN ≤ c + d ∧ c + d ≤ INT_MAX →
      evalExpr program (k + 5) (.call "add" [.intLit c, .intLit d]) σ =
        some (.int (c + d), σ.visit 114) := by
    intro c d h
    simp [evalExpr, evalArgs, bindParams, execSeq, execStmt, builtin_add, findFun_add, add,
      convert, lookup, binV, addV, promote, mkInt, h.1, h.2, State.visit]
  have hs2 : INT_MIN ≤ b + a ∧ b + a ≤ INT_MAX := by rw [Int.add_comm]; exact hs
  refine ⟨hcall a b hs, rfl, rfl, ?_, hcall 1 2 (by decide), by simp [mainBody], ?_,
    execSeq_fuel_add program 46 k _ _ _ (runMain_46 argc argv), by simp [stateEnd, lookup]⟩
  · rw [hcall a b hs, hcall b a hs2, Int.add_comm]
  · rw [runMainUpTo_fuel k 95 argc argv _ (runMainUpTo_95 argc argv)]
    simp [lookup, state38]

/-- Instance of C10 at the call `add(1, 2)` of line 96. -/
theorem C10_add_is_sum_witness :
    (INT_MIN ≤ (1 : Int) + 2 ∧ (1 : Int) + 2 ≤ INT_MAX) ∧
    evalExpr program 5 (.call "add" [.intLit 1, .intLit 2]) (initState 1 []) =
      some (.int (1 + 2), (initState 1 []).visit 114) :=
  ⟨by decide, (C10_add_is_sum 1 2 (initState 1 []) 0 1 [] (by decide)).1⟩

/-- C6: in every state in which `x` is an `int` (whatever `b` is), the
condition of line 60 evaluates to the truth value of
`((x < 6 and 3 > 5 and 2 < 5) or 3 > 5)`, which is false, so the chain of
lines 60-84 runs its second branch (line 79, writing Else) when `x > 8` and
otherwise its third (line 83, writing None); exactly the statements of lines
60, 77 and of the chosen branch are executed and nothing else is written.
In `main`, where `x = 8`, it writes None. -/
theorem C6_branch_chain (x : Int) (σ : State) (k : Nat) (argc : Int) (argv : List String)
    (hx : lookup "x" σ.vars = some (.int x)) :
    evalExpr program (k + 5) cond60 σ =
      some (.bool (decide ((x < 6 ∧ (3 : Int) > 5 ∧ (2 : Int) < 5) ∨ (3 : Int) > 5)), σ) ∧
    evalExpr program (k + 5) cond60 σ = some (.bool false, σ) ∧
    (x > 8 → execStmt program (k + 8) chain60 σ =
      some (.normal, { σ with out := σ.out ++ ["Else"], trace := σ.trace ++ [60, 77, 79] })) ∧
    (x ≤ 8 → execStmt program (k + 8) chain60 σ =
      some (.normal, { σ with out := σ.out ++ ["None"], trace := σ.trace ++ [60, 77, 83] })) ∧
    runMainUpTo (k + 46) 59 argc argv = some (.normal, state59 argc argv) ∧
    lookup "x" (state59 argc argv).vars = some (.int 8) ∧
    runMainUpTo (k + 46) 84 argc argv = some (.normal,
      { state59 argc argv with
        out := (state59 argc argv).out ++ ["None"],
        trace := (state59 argc argv).trace ++ [60, 77, 83] }) := by
  have hcond : evalExpr program (k + 5) cond60 σ = some (.bool false, σ) := by
    by_cases h6 : x < 6 <;>
      simp [cond60, evalExpr, binV, ltV, gtV, promote, toBool, convert, hx, h6]
  refine ⟨?_, hcond, ?_, ?_,
    runMainUpTo_fuel k 59 argc argv _ (runMainUpTo_59 argc argv),
    by simp [state59, state38, lookup], ?_⟩
  · rw [hcond]
    simp
  · intro h8
    have h6 : ¬ x < 6 := by omega
    simp [chain60, cond60, execStmt, execSeq, evalExpr, binV, ltV, gtV, promote, toBool,
      convert, State.visit, State.leave, render, hx, h8, h6]
  · intro h8
    have h8n : ¬ 8 < x := by omega
    by_cases h6 : x < 6 <;>
      simp [chain60, cond60, execStmt, execSeq, evalExpr, binV, ltV, gtV, promote, toBool,
        convert, State.visit, State.leave, render, hx, h8n, h6]
  · rw [runMainUpTo_fuel k 84 argc argv _ (runMainUpTo_84 argc argv)]
    simp [state84, state59]

/-- Instance of C6 at the state in which `main` reaches line 60. -/
theorem C6_branch_chain_witness :
    lookup "x" (state59 1 []).vars = some (.int 8) ∧
    execStmt program 8 chain60 (state59 1 []) =
      some (.normal,
        { state59 1 [] with
          out := (state59 1 []).out ++ ["None"],
          trace := (state59 1 []).trace ++ [60, 77, 83] }) :=
  ⟨by simp [state59, state38, lookup],
    (C6_branch_chain 8 (state59 1 []) 0 1 [] (by simp [state59, state38, lookup])).2.2.2.1
      (by decide)⟩

/-- C7: in every state in which `x` is an `int`, the loop of lines 85-90
terminates normally: for `x = 0` only the loop head is executed and nothing
is written; for `x ≠ 0` the head, the output statement of line 87 and the
`break` of line 88 are executed once each, one line hello is written, and
the `continue` of line 89 is not executed; no variable changes.  In `main`,
where `x = 8`, the loop writes hello once. -/
theorem C7_loop_terminates (x : Int) (σ : State) (k : Nat) (argc : Int) (argv : List String)
    (hx : lookup "x" σ.vars = some (.int x)) :
    (x = 0 → execStmt program (k + 4) loop85 σ = some (.normal, σ.visit 85)) ∧
    (x ≠ 0 → execStmt program (k + 4) loop85 σ =
      some (.normal, { σ with out := σ.out ++ ["hello"], trace := σ.trace ++ [85, 87, 88] })) ∧
    (∃ τ : State, execStmt program (k + 4) loop85 σ = some (.normal, τ) ∧
      τ.vars = σ.vars ∧ 89 ∉ τ.trace.drop σ.trace.length) ∧
    runMainUpTo (k + 46) 84 argc argv = some (.normal, state84 argc argv) ∧
    lookup "x" (state84 argc argv).vars = some (.int 8) ∧
    runMainUpTo (k + 46) 90 argc argv = some (.normal,
      { state84 argc argv with
        out := (state84 argc argv).out ++ ["hello"],
        trace := (state84 argc argv).trace ++ [85, 87, 88] }) := by
  have hzero : x = 0 → execStmt program (k + 4) loop85 σ = some (.normal, σ.visit 85) := by
    intro h0
    subst h0
    simp [loop85, execStmt, execSeq, evalExpr, toBool, convert, State.visit, State.leave,
      render, hx]
  have hpos : x ≠ 0 → execStmt program (k + 4) loop85 σ =
      some (.normal,
        { σ with out := σ.out ++ ["hello"], trace := σ.trace ++ [85, 87, 88] }) := by
    intro h0
    simp [loop85, execStmt, execSeq, evalExpr, toBool, convert, State.visit, State.leave,
      render, hx, h0]
  refine ⟨hzero, hpos, ?_, runMainUpTo_fuel k 84 argc argv _ (runMainUpTo_84 argc argv),
    by simp [state84, state38, lookup],
    runMainUpTo_fuel k 90 argc argv _ (runMainUpTo_90 argc argv)⟩
  by_cases h0 : x = 0
  · exact ⟨_, hzero h0, rfl, by simp [State.visit]⟩
  · exact ⟨_, hpos h0, rfl, by simp⟩

/-- Instance of C7 at the state in which `main` reaches line 85. -/
theorem C7_loop_terminates_witness :
    lookup "x" (state84 1 []).vars = some (.int 8) ∧
    execStmt program 4 loop85 (state84 1 []) =
      some (.normal,
        { state84 1 [] with
          out := (state84 1 []).out ++ ["hello"],
          trace := (state84 1 []).trace ++ [85, 87, 88] }) :=
  ⟨by simp [state84, state38, lookup],
    (C7_loop_terminates 8 (state84 1 []) 0 1 [] (by simp [state84, state38, lookup])).2.1
      (by decide)⟩

end PyPlus
